import Mathlib

/-!
# Meow-AI: the inbound-event handler and the send commands of `main.go`

A shallow embedding of `Contains`, `handler`, `parseJID` and the `send`, `sendpoll`,
`multisend` and `reconnect` cases of `handleCmd` from `src/main.go`.

* Inbound text (message bodies, completion texts) is valid UTF-8 and is held as a
  Lean `String`; outbound text is a Go string, that is a byte sequence (`GoString`),
  because `Text[1:]` slices bytes, not characters.
* Everything outside the program (the `strings.ToLower` library function, the
  environment, the completion service, the diagnostic subprocesses, the transport)
  is gathered in a `World`; `handler` is a pure function of the world and the event.
  Likewise `handleCmd` is a pure function of a `CmdWorld` and the command line.
* A run of `handler` is the list of effects it issues, in program order, and the way
  it ends (`Outcome`): a normal return, a Go run-time panic, or `os.Exit`.
-/

namespace MeowAI

/-! ## Go strings -/

/-- Byte sequence of a Go string; every element is below 256. -/
abbrev GoString := List Nat

/-- UTF-8 encoding of one code point. -/
def encodeRune (c : Nat) : List Nat :=
  if c < 0x80 then [c]
  else if c < 0x800 then [0xC0 + c / 64, 0x80 + c % 64]
  else if c < 0x10000 then [0xE0 + c / 4096, 0x80 + (c / 64) % 64, 0x80 + c % 64]
  else [0xF0 + c / 262144, 0x80 + (c / 4096) % 64, 0x80 + (c / 64) % 64, 0x80 + c % 64]

/-- The bytes of a (valid UTF-8) text. -/
def goBytes (s : String) : GoString :=
  (s.data.map (fun c => encodeRune c.toNat)).flatten

/-! ## Data model -/

/-- A `types.JID`, represented by the text its `String()` method renders. -/
structure JID where
  str : String
deriving DecidableEq, Repr

/-- Method `JID.String()`. -/
def JID.String (j : JID) : String := j.str

/-- The quoted parent message; the handler reads only its `Conversation`. -/
structure QuotedMessage where
  conversation : Option String
deriving DecidableEq, Repr

/-- Inbound `ContextInfo`. -/
structure ContextInfo where
  quotedMessage : Option QuotedMessage
deriving DecidableEq, Repr

/-- Inbound `ExtendedTextMessage`. -/
structure ExtendedTextMessage where
  text : Option String
  contextInfo : Option ContextInfo
deriving DecidableEq, Repr

/-- Inbound `waProto.Message` (the two fields the handler reads). -/
structure Message where
  conversation : Option String
  extendedTextMessage : Option ExtendedTextMessage
deriving DecidableEq, Repr

/-- Getter `GetConversation()`; empty on an absent field. -/
def Message.GetConversation (m : Message) : String := m.conversation.getD ""

/-- Getter `GetExtendedTextMessage()`. -/
def Message.GetExtendedTextMessage (m : Message) : Option ExtendedTextMessage :=
  m.extendedTextMessage

/-- Getter `GetText()` on a possibly nil extended text message. -/
def GetText : Option ExtendedTextMessage → String
  | some e => e.text.getD ""
  | none => ""

/-- Getter `GetContextInfo()` on a possibly nil extended text message. -/
def GetContextInfo : Option ExtendedTextMessage → Option ContextInfo
  | some e => e.contextInfo
  | none => none

/-- Getter `GetQuotedMessage()` on a possibly nil context info. -/
def GetQuotedMessage : Option ContextInfo → Option QuotedMessage
  | some c => c.quotedMessage
  | none => none

/-- Getter `GetConversation()` on a possibly nil quoted message. -/
def GetQuotedConversation : Option QuotedMessage → String
  | some q => q.conversation.getD ""
  | none => ""

/-- The fields of `types.MessageInfo` the handler reads. -/
structure MessageInfo where
  ID : String
  Sender : JID
  Chat : JID
  IsFromMe : Bool
  IsGroup : Bool
  MediaType : String
deriving DecidableEq, Repr

/-- Event `events.Message`. -/
structure MessageEvent where
  Info : MessageInfo
  Message : Message
deriving DecidableEq, Repr

/-- Outbound `ContextInfo`: the quote reference of a reply. -/
structure OutContextInfo where
  StanzaId : String
  Participant : String
  QuotedMessage : Message
deriving DecidableEq, Repr

/-- Outbound `ExtendedTextMessage`. -/
structure OutExtendedText where
  Text : GoString
  ContextInfo : OutContextInfo
deriving DecidableEq, Repr

/-- The content of a `PollCreationMessage`: question, options and the number of options
that may be selected. -/
structure PollCreation where
  Name : String
  Options : List String
  SelectableOptionsCount : Int
deriving DecidableEq, Repr

/-- Outbound `waProto.Message`: the fields the handler sets. -/
structure OutMessage where
  Conversation : Option GoString := none
  ExtendedTextMessage : Option OutExtendedText := none
  PollCreationMessage : Option PollCreation := none
deriving DecidableEq, Repr

/-- Library function `cli.BuildPollCreation(name, optionNames, selectableOptionCount)`:
a count that is negative or larger than the number of options is reset to 0. -/
def BuildPollCreation (name : String) (optionNames : List String)
    (selectableOptionCount : Int) : OutMessage :=
  { PollCreationMessage := some ⟨name, optionNames,
      if selectableOptionCount < 0 ∨ selectableOptionCount > (optionNames.length : Int) then 0
      else selectableOptionCount⟩ }

/-- The quote reference (stanza id, participant) an outbound message carries, if any. -/
def OutMessage.quote (m : OutMessage) : Option (String × String) :=
  m.ExtendedTextMessage.map (fun e => (e.ContextInfo.StanzaId, e.ContextInfo.Participant))

/-- The text an outbound message carries, if any. -/
def OutMessage.text (m : OutMessage) : Option GoString :=
  match m.Conversation with
  | some t => some t
  | none => m.ExtendedTextMessage.map (fun e => e.Text)

/-- Request `gogpt.CompletionRequest`; the four sampling constants are in tenths. -/
structure CompletionRequest where
  Model : String
  MaxTokens : Nat
  TemperatureTenths : Nat
  Prompt : String
  TopPTenths : Nat
  FrequencyPenaltyTenths : Nat
  PresencePenaltyTenths : Nat
  Stop : List String
deriving DecidableEq, Repr

/-- One returned choice. -/
structure CompletionChoice where
  Text : String
deriving DecidableEq, Repr

/-- Response `gogpt.CompletionResponse`. -/
structure CompletionResponse where
  Choices : List CompletionChoice
deriving DecidableEq, Repr

/-- Event `events.KeepAliveTimeout`. -/
structure KeepAliveTimeout where
  ErrorCount : Int
deriving DecidableEq, Repr

/-- The events `handler` switches on; `other` is any event type without a case. -/
inductive Event where
  | AppStateSyncComplete (name : String)
  | Connected
  | PushNameSetting
  | StreamReplaced
  | Message (evt : MessageEvent)
  | HistorySync
  | AppState
  | KeepAliveTimeout (evt : KeepAliveTimeout)
  | KeepAliveRestored
  | other
deriving DecidableEq, Repr

/-- Everything `handler` reads from outside the program. -/
structure World where
  /-- Library function `strings.ToLower`. -/
  toLower : String → String
  /-- Value of `os.Getenv("API_KEY")` after `godotenv.Load()`. -/
  apiKey : String
  /-- Result pair of `cgpt.CreateCompletion`: the response and the error, if any. -/
  createCompletion : CompletionRequest → CompletionResponse × Option String
  /-- Result pair of `exec.Command(name, args...).Output()`: captured standard output
  and the error, if any. -/
  cmdOutput : String → List String → GoString × Option String
  /-- Field `cli.Store.PushName`. -/
  pushName : String
  /-- Error of `cli.SendPresence`, if any. -/
  sendPresenceErr : Option String
  /-- Error of `cli.Connect`, if any. -/
  connectErr : Option String
  /-- Global `historySyncID` when the event arrives. -/
  historySyncID : Int
  /-- Global `startupTime`. -/
  startupTime : Int
  /-- Error of `os.OpenFile` on the history file, if any. -/
  openFileErr : Option String
  /-- Error of `enc.Encode`, if any. -/
  encodeErr : Option String

/-- What a run of `handler` does to the outside, one constructor per call. -/
inductive Effect where
  | logError (msg : String)
  | logWarn (msg : String)
  | logInfo (msg : String)
  | logDebug (msg : String)
  | println (msg : String)
  /-- Call `cgpt.CreateCompletion`. -/
  | createCompletion (req : CompletionRequest)
  /-- Call `cli.SendMessage`; `async` when issued with `go`. -/
  | sendMessage (async : Bool) (chat : JID) (msg : OutMessage)
  /-- Call `cmd.Output()`; `async` for the second, `go cmd.Output()`. -/
  | cmdOutput (async : Bool) (name : String) (args : List String)
  | sendPresence
  | disconnect
  | connect
  /-- Call `atomic.AddInt32(&historySyncID, 1)`, with the new value. -/
  | setHistorySyncID (id : Int)
  | openFile (fileName : String)
  | encode (fileName : String)
  | closeFile (fileName : String)
deriving DecidableEq, Repr

/-- Go run-time panics the handler can raise. -/
inductive Panic where
  | indexOutOfRange
  | sliceBoundsOutOfRange
deriving DecidableEq, Repr

/-- How a run of `handler` ends. -/
inductive Outcome where
  | returned
  | panicked (p : Panic)
  | exited (code : Nat)
deriving DecidableEq, Repr

/-- A run of `handler`: the effects issued, in order, and the way it ended. -/
structure Run where
  effects : List Effect
  outcome : Outcome
deriving DecidableEq, Repr

/-- The outbound message of an effect, if it is a send. -/
def Effect.asSend : Effect → Option (JID × OutMessage)
  | .sendMessage _ chat msg => some (chat, msg)
  | _ => none

/-- The completion request of an effect, if it is one. -/
def Effect.asCompletion : Effect → Option CompletionRequest
  | .createCompletion req => some req
  | _ => none

/-- The error-log line of an effect, if it is one. -/
def Effect.asErrorLog : Effect → Option String
  | .logError msg => some msg
  | _ => none

/-- The outbound messages of a run: destination chat and payload, in order. -/
def Run.sends (r : Run) : List (JID × OutMessage) :=
  r.effects.filterMap Effect.asSend

/-- The completion requests of a run, in order. -/
def Run.completions (r : Run) : List CompletionRequest :=
  r.effects.filterMap Effect.asCompletion

/-- The error-log lines of a run, in order. -/
def Run.errorLogs (r : Run) : List String :=
  r.effects.filterMap Effect.asErrorLog

/-! ## The program -/

/-- Function `Contains` of `main.go`: the loop `for i := 0; i < n; i++`, started at
index `i` with `k` iterations left. -/
def ContainsFrom (match_ : Nat → Bool) : Nat → Nat → Bool
  | 0, _ => false
  | k + 1, i => if match_ i then true else ContainsFrom match_ k (i + 1)

/-- Function `Contains(n, match)` of `main.go`. -/
def Contains (n : Nat) (match_ : Nat → Bool) : Bool :=
  ContainsFrom match_ n 0

/-- Suffix `ttd` appended to every canned message. -/
def ttd : String := ""

/-- Canned reply to profanity. -/
def mktr1 : String := "Tidak ramah, ⭐ 1 ." ++ ttd

/-- Canned reply to a name alias. -/
def mozip1 : String := "Halo bang 🙂." ++ ttd

/-- Canned reply to a greeting. -/
def mhalo1 : String := "Halo disana, aku adalah bot pintar yang siap menjawab pertanyaan kamu apa saja. Harap gunakan bahasa Indonesia yang baik dan benar. Saya juga bisa bahasa nasional negara lain lho seperti: Inggris, Jepang, China Mandarin, Jerman dan lainnya.\n\n *Pro TIP:* Gunakan quoted message saat membalas pesan agar bot dapat nyambung dalam obrolanmu." ++ ttd

/-- Canned reply to a media message (local `msg`). -/
def mediaMsg : String := "Saat ini bot hanya mendukung pesan teks, segala jenis pesan media tidak didukung 🙏.\n\nBOT: *@ozip.cf*"

/-- Profanity list. -/
def ktr1 : List String := ["kontol","kontoll","bangsat","ngentod","tod","ngentot","asu","asw","celeng","celeh","tai","fuck","itil","jembut","memek","memekk","memekkk","jembutt","jembuttt","pekok","pekokk","pekokkk","itill","ngentott","ngentottt","kontt","konttt","gaberrr","kuntul","asuu","asuu","su","suu","ngic","ngiclik","meki","kontl","kont","kntl","dick","titit","peju","gigolo","bacod","tolol","goblok","gaber","gaberr","peli","pelii","peliii"]

/-- Name-alias list. -/
def ozip1 : List String := ["ji","zi","jii","zii","oji","ozi","ozip","ozi saputra","ozipoetra","bang","cok","cuk","lur"]

/-- Greeting list. -/
def halo1 : List String := ["halo","hai","oy","p","ping","hy","tes","woy"]

/-- The literal `&waProto.Message{ExtendedTextMessage: {Text: text, ContextInfo:
{StanzaId: evt.Info.ID, Participant: evt.Info.Sender.String(), QuotedMessage:
evt.Message}}}` that `handler` builds for every quoting reply. -/
def quotingReply (evt : MessageEvent) (text : GoString) : OutMessage :=
  { ExtendedTextMessage := some
      { Text := text
        ContextInfo :=
          { StanzaId := evt.Info.ID
            Participant := evt.Info.Sender.String
            QuotedMessage := evt.Message } } }

/-- The request literal both completion paths build, up to its prompt. -/
def completionRequest (prompt : String) : CompletionRequest :=
  { Model := "text-davinci-003"
    MaxTokens := 512
    TemperatureTenths := 9
    Prompt := prompt
    TopPTenths := 3
    FrequencyPenaltyTenths := 8
    PresencePenaltyTenths := 0
    Stop := ["You:"] }

/-- Expression `resp.Choices[0].Text[1:]`: indexing an empty `Choices` panics, slicing
an empty `Text` from 1 panics, otherwise the first byte is dropped. -/
def firstChoiceTail (resp : CompletionResponse) : Except Panic GoString :=
  match resp.Choices with
  | [] => .error .indexOutOfRange
  | c :: _ =>
    if (goBytes c.Text).length < 1 then .error .sliceBoundsOutOfRange
    else .ok ((goBytes c.Text).drop 1)

/-- Result of `atomic.AddInt32(&historySyncID, 1)` on a 32-bit signed counter. -/
def addInt32 (x d : Int) : Int :=
  (x + d + 2 ^ 31) % 2 ^ 32 - 2 ^ 31

/-- The check `if apiKey == "" { log.Errorf("Missing API KEY") }`. -/
def apiKeyCheck (apiKey : String) : List Effect :=
  if apiKey = "" then [.logError "Missing API KEY"] else []

/-- Case `*events.Message` of `handler`. -/
def handleMessage (w : World) (evt : MessageEvent) : Run :=
  let messageBody := evt.Message.GetConversation
  let messageBodyd := GetText evt.Message.GetExtendedTextMessage
  let messageBodyds := w.toLower messageBodyd
  let messageBodys := w.toLower messageBody
  let apiKey := w.apiKey
  let pre : List Effect := apiKeyCheck apiKey
  let kotor := Contains ktr1.length (fun i => ktr1[i]? == some messageBodys)
  let ozip := Contains ozip1.length (fun i => ozip1[i]? == some messageBodys)
  let halo := Contains halo1.length (fun i => halo1[i]? == some messageBodys)
  let rkotor := Contains ktr1.length (fun i => ktr1[i]? == some messageBodyds)
  let rozip := Contains ozip1.length (fun i => ozip1[i]? == some messageBodyds)
  let rhalo := Contains halo1.length (fun i => halo1[i]? == some messageBodyds)
  if !evt.Info.IsFromMe && !evt.Info.IsGroup && evt.Info.MediaType == ""
      && evt.Message.GetConversation != "" then
    if kotor == true then
      ⟨pre ++ [.sendMessage true evt.Info.Chat (quotingReply evt (goBytes mktr1))], .returned⟩
    else if ozip == true then
      ⟨pre ++ [.sendMessage true evt.Info.Chat (quotingReply evt (goBytes mozip1))], .returned⟩
    else if halo == true then
      ⟨pre ++ [.sendMessage true evt.Info.Chat (quotingReply evt (goBytes mhalo1))], .returned⟩
    else if messageBodys == "meow" then
      ⟨pre ++ [.sendMessage false evt.Info.Chat
        (BuildPollCreation "Apakah kalian suka meow?" ["Suka", "Tidak Suka"] 1)],
        .returned⟩
    else
      let requ := completionRequest ("You: " ++ messageBody ++ "\nFriend: ")
      let (respu, err) := w.createCompletion requ
      let logs : List Effect := if err.isSome then [.logError "CGPT Error"] else []
      match firstChoiceTail respu with
      | .error p => ⟨pre ++ [.createCompletion requ] ++ logs, .panicked p⟩
      | .ok text =>
        ⟨pre ++ [.createCompletion requ] ++ logs
          ++ [.sendMessage false evt.Info.Chat { Conversation := some text }], .returned⟩
  else if !evt.Info.IsFromMe && !evt.Info.IsGroup && evt.Info.MediaType == ""
      && GetText evt.Message.GetExtendedTextMessage != "" then
    let reqi := completionRequest
      ("Friend: "
        ++ GetQuotedConversation
            (GetQuotedMessage (GetContextInfo evt.Message.GetExtendedTextMessage))
        ++ "\nYou: " ++ GetText evt.Message.GetExtendedTextMessage ++ "\nFriend: ")
    let (respi, err) := w.createCompletion reqi
    let logs : List Effect := if err.isSome then [.logError "CGPT Error"] else []
    if rkotor == true then
      ⟨pre ++ [.createCompletion reqi] ++ logs
        ++ [.sendMessage true evt.Info.Chat (quotingReply evt (goBytes mktr1))], .returned⟩
    else if rozip == true then
      ⟨pre ++ [.createCompletion reqi] ++ logs
        ++ [.sendMessage true evt.Info.Chat (quotingReply evt (goBytes mozip1))], .returned⟩
    else if rhalo == true then
      ⟨pre ++ [.createCompletion reqi] ++ logs
        ++ [.sendMessage true evt.Info.Chat (quotingReply evt (goBytes mhalo1))], .returned⟩
    else
      match firstChoiceTail respi with
      | .error p => ⟨pre ++ [.createCompletion reqi] ++ logs, .panicked p⟩
      | .ok text =>
        ⟨pre ++ [.createCompletion reqi] ++ logs
          ++ [.sendMessage false evt.Info.Chat (quotingReply evt text)], .returned⟩
  else if !evt.Info.IsFromMe && !evt.Info.IsGroup && evt.Info.MediaType != "" then
    ⟨pre ++ [.sendMessage true evt.Info.Chat (quotingReply evt (goBytes mediaMsg))], .returned⟩
  else if evt.Info.IsFromMe == true && evt.Info.MediaType == ""
      && evt.Message.GetConversation != "" then
    if messageBodys == "!status" then
      let (outd, err) := w.cmdOutput "neofetch" ["--stdout"]
      let after : List Effect :=
        if err.isSome then [.println "could not run command: "]
        else [.cmdOutput true "neofetch" ["--stdout"]]
      ⟨pre ++ [.cmdOutput false "neofetch" ["--stdout"]] ++ after
        ++ [.sendMessage false evt.Info.Chat (quotingReply evt outd)], .returned⟩
    else if messageBodys == "!speedtest" then
      let (outd, err) := w.cmdOutput "speedtest" ["--progress=no"]
      let after : List Effect :=
        if err.isSome then [.println "could not run command: "] else []
      ⟨pre ++ [.cmdOutput false "speedtest" ["--progress=no"]] ++ after
        ++ [.sendMessage false evt.Info.Chat (quotingReply evt outd)], .returned⟩
    else ⟨pre, .returned⟩
  else ⟨pre, .returned⟩

/-- Function `handler` of `main.go`: the type switch on the event. Log effects carry
the format string of the call. -/
def handler (w : World) : Event → Run
  | .AppStateSyncComplete name =>
    if w.pushName.length > 0 && name == "critical_block" then
      match w.sendPresenceErr with
      | some _ => ⟨[.sendPresence, .logWarn "Failed to send available presence: %v"], .returned⟩
      | none => ⟨[.sendPresence, .logInfo "Marked self as available"], .returned⟩
    else ⟨[], .returned⟩
  | .Connected | .PushNameSetting =>
    if w.pushName.length == 0 then ⟨[], .returned⟩
    else
      match w.sendPresenceErr with
      | some _ => ⟨[.sendPresence, .logWarn "Failed to send available presence: %v"], .returned⟩
      | none => ⟨[.sendPresence, .logInfo "Marked self as available"], .returned⟩
  | .StreamReplaced => ⟨[], .exited 0⟩
  | .Message evt => handleMessage w evt
  | .HistorySync =>
    let id := addInt32 w.historySyncID 1
    let fileName := "history-" ++ toString w.startupTime ++ "-" ++ toString id ++ ".json"
    match w.openFileErr with
    | some _ =>
      ⟨[.setHistorySyncID id, .openFile fileName,
        .logError "Failed to open file to write history sync: %v"], .returned⟩
    | none =>
      match w.encodeErr with
      | some _ =>
        ⟨[.setHistorySyncID id, .openFile fileName, .encode fileName,
          .logError "Failed to write history sync: %v"], .returned⟩
      | none =>
        ⟨[.setHistorySyncID id, .openFile fileName, .encode fileName,
          .logInfo "Wrote history sync to %s", .closeFile fileName], .returned⟩
  | .AppState => ⟨[.logDebug "App state event: %+v / %+v"], .returned⟩
  | .KeepAliveTimeout evt =>
    if evt.ErrorCount > 3 then
      ⟨[.logDebug "Keepalive timeout event: %+v",
        .logDebug "Got >3 keepalive timeouts, forcing reconnect",
        .disconnect, .connect]
        ++ (if w.connectErr.isSome then
              [.logError "Error force-reconnecting after keepalive timeouts: %v"]
            else []),
        .returned⟩
    else ⟨[.logDebug "Keepalive timeout event: %+v"], .returned⟩
  | .KeepAliveRestored => ⟨[.logDebug "Keepalive restored"], .returned⟩
  | .other => ⟨[], .returned⟩

/-! ## Names for the pieces of a run -/

/-- The request of the direct plain-text branch (local `requ`). -/
def directRequest (evt : MessageEvent) : CompletionRequest :=
  completionRequest ("You: " ++ evt.Message.GetConversation ++ "\nFriend: ")

/-- The request of the quoted-reply branch (local `reqi`). -/
def quotedRequest (evt : MessageEvent) : CompletionRequest :=
  completionRequest
    ("Friend: "
      ++ GetQuotedConversation
          (GetQuotedMessage (GetContextInfo evt.Message.GetExtendedTextMessage))
      ++ "\nYou: " ++ GetText evt.Message.GetExtendedTextMessage ++ "\nFriend: ")

/-- The log line `CGPT Error`, issued when the completion call returned an error. -/
def completionErrorLog (err : Option String) : List Effect :=
  if err.isSome then [.logError "CGPT Error"] else []

/-- The poll sent on `meow`. -/
def meowPoll : OutMessage :=
  { PollCreationMessage := some ⟨"Apakah kalian suka meow?", ["Suka", "Tidak Suka"], 1⟩ }

/-- The three keyword lists together. -/
def keywords : List String := ktr1 ++ ozip1 ++ halo1

/-- Removal of leading and trailing whitespace, as the specification words it. -/
def trimSpace (s : String) : String :=
  ⟨((s.data.dropWhile Char.isWhitespace).reverse.dropWhile Char.isWhitespace).reverse⟩

/-! ## Concrete worlds for evaluation -/

/-- Case folding of ASCII text, where `strings.ToLower` maps `A`..`Z` to `a`..`z`
and leaves every other ASCII character unchanged. -/
def asciiLower (s : String) : String :=
  ⟨s.data.map (fun c =>
    if 65 ≤ c.toNat ∧ c.toNat ≤ 90 then Char.ofNat (c.toNat + 32) else c)⟩

/-- A world whose completion service and subprocesses answer as given. -/
def mkWorld (completion : CompletionResponse × Option String)
    (cmd : GoString × Option String) : World :=
  { toLower := asciiLower
    apiKey := "k"
    createCompletion := fun _ => completion
    cmdOutput := fun _ _ => cmd
    pushName := "meow"
    sendPresenceErr := none
    connectErr := none
    historySyncID := 0
    startupTime := 0
    openFileErr := none
    encodeErr := none }

/-- A world whose completion service answers with the single choice `text`. -/
def okWorld (text : String) : World :=
  mkWorld (⟨[⟨text⟩]⟩, none) ([], none)

/-- A world whose completion service fails, returning the zero response. -/
def errWorld : World :=
  mkWorld (⟨[]⟩, some "status code 401") ([], some "exit status 1")

/-- A direct (not self, not group, no media) message with a plain body. -/
def plainMsg (body : String) : MessageEvent :=
  { Info := { ID := "M1", Sender := ⟨"628@s.whatsapp.net"⟩, Chat := ⟨"628@s.whatsapp.net"⟩,
              IsFromMe := false, IsGroup := false, MediaType := "" }
    Message := { conversation := some body, extendedTextMessage := none } }

/-- A direct message carried as extended text, with an optional quoted parent body. -/
def extMsg (text : String) (quoted : Option String) : MessageEvent :=
  { Info := { ID := "M2", Sender := ⟨"628@s.whatsapp.net"⟩, Chat := ⟨"628@s.whatsapp.net"⟩,
              IsFromMe := false, IsGroup := false, MediaType := "" }
    Message :=
      { conversation := none
        extendedTextMessage := some
          { text := some text
            contextInfo := quoted.map (fun q => { quotedMessage := some { conversation := some q } }) } } }

/-- A message sent by the account itself. -/
def selfMsg (isGroup : Bool) (body : String) : MessageEvent :=
  { Info := { ID := "M3", Sender := ⟨"621@s.whatsapp.net"⟩, Chat := ⟨"120363@g.us"⟩,
              IsFromMe := true, IsGroup := isGroup, MediaType := "" }
    Message := { conversation := some body, extendedTextMessage := none } }

/-- A world whose diagnostic subprocess prints `up` and succeeds. -/
def cmdWorld : World :=
  mkWorld (⟨[]⟩, none) (goBytes "up", none)

/-! ## Keepalive runs -/

/-- Number of forced reconnect cycles in an effect list: a `Disconnect` directly
followed by a `Connect`. -/
def countReconnects (l : List Effect) : Nat :=
  (l.zip l.tail).count (Effect.disconnect, Effect.connect)

/-- Number of forced reconnect cycles of a run. -/
def Run.reconnects (r : Run) : Nat := countReconnects r.effects

/-- A run of `n` consecutive keepalive timeouts with nothing restored in between: the
events carry the error counts 1, 2, ..., `n`. -/
def keepAliveRun (n : Nat) : List Event :=
  (List.range n).map (fun i => .KeepAliveTimeout ⟨(i : Int) + 1⟩)

/-- Number of forced reconnect cycles `handler` triggers over a list of events. -/
def totalReconnects (w : World) (evs : List Event) : Nat :=
  (evs.map (fun e => (handler w e).reconnects)).sum

/-! ## The operator commands -/

/-- Library function `strings.Join`. -/
def Join (elems : List String) (sep : String) : String :=
  sep.intercalate elems

/-- The characters before and after the first occurrence of `sep`, if there is one. -/
def cutChars (sep : List Char) : List Char → Option (List Char × List Char)
  | [] => if sep = [] then some ([], []) else none
  | c :: t =>
    if sep.isPrefixOf (c :: t) then some ([], (c :: t).drop sep.length)
    else (cutChars sep t).map (fun p => (c :: p.1, p.2))

/-- Library function `strings.Cut`: the text before and after the first occurrence of
`sep`, or the whole text and the empty text when `sep` does not occur. -/
def Cut (s sep : String) : String × String × Bool :=
  match cutChars sep.data s.data with
  | some (before, after) => (⟨before⟩, ⟨after⟩, true)
  | none => (s, "", false)

/-- The pieces between occurrences of the character `sep`; `cur` is the piece being
read, reversed. -/
def splitPieces (sep : Char) : List Char → List Char → List String
  | [], cur => [⟨cur.reverse⟩]
  | c :: t, cur =>
    if c = sep then ⟨cur.reverse⟩ :: splitPieces sep t []
    else splitPieces sep t (c :: cur)

/-- Library function `strings.Split`, for a separator of one character. -/
def Split (s : String) (sep : Char) : List String :=
  splitPieces sep s.data []

/-- Library function `unicode.IsSpace`. -/
def isSpace (ch : Char) : Bool :=
  (9 ≤ ch.toNat && ch.toNat ≤ 13) || ch.toNat == 0x20 || ch.toNat == 0x85
    || ch.toNat == 0xA0 || ch.toNat == 0x1680 || (0x2000 ≤ ch.toNat && ch.toNat ≤ 0x200A)
    || ch.toNat == 0x2028 || ch.toNat == 0x2029 || ch.toNat == 0x202F
    || ch.toNat == 0x205F || ch.toNat == 0x3000

/-- Library function `strings.TrimSpace`. -/
def TrimSpace (s : String) : String :=
  ⟨((s.data.dropWhile isSpace).reverse.dropWhile isSpace).reverse⟩

/-- Everything `handleCmd` reads from outside the program. -/
structure CmdWorld where
  /-- Library function `types.NewJID(user, server)`. -/
  NewJID : String → String → JID
  /-- Result pair of `types.ParseJID`: the JID and the error, if any. -/
  ParseJID : String → JID × Option String
  /-- Field `User` of a JID. -/
  User : JID → String
  /-- Library function `strconv.Atoi`: the integer, or nothing on an error. -/
  Atoi : String → Option Int
  /-- Error of `cli.SendMessage` for a recipient and a payload, if any. -/
  sendMessageErr : JID → OutMessage → Option String
  /-- Error of `cli.Connect`, if any. -/
  connectErr : Option String

/-- Constant `types.DefaultUserServer`. -/
def DefaultUserServer : String := "s.whatsapp.net"

/-- Function `parseJID` of `main.go`: the log lines it writes and its result pair.
Reading `arg[0]` of an empty argument panics. -/
def parseJID (c : CmdWorld) (arg : String) : List Effect × Except Panic (JID × Bool) :=
  match arg.data with
  | [] => ([], .error .indexOutOfRange)
  | first :: rest =>
    let arg : String := if first = '+' then ⟨rest⟩ else arg
    if !arg.data.contains '@' then
      ([], .ok (c.NewJID arg DefaultUserServer, true))
    else
      let (recipient, err) := c.ParseJID arg
      if err.isSome then
        ([.logError "Invalid JID %s: %v"], .ok (recipient, false))
      else if c.User recipient == "" then
        ([.logError "Invalid JID %s: no server specified"], .ok (recipient, false))
      else ([], .ok (recipient, true))

/-- The log line after a synchronous `cli.SendMessage` of `send` and `sendpoll`. -/
def sendLog (c : CmdWorld) (recipient : JID) (msg : OutMessage) : List Effect :=
  if (c.sendMessageErr recipient msg).isSome then [.logError "Error sending message: %v"]
  else [.logInfo "Message sent (server timestamp: %s)"]

/-- The goroutine `multisend` starts for one recipient: the send and its log line. -/
def multisendTask (c : CmdWorld) (msg : OutMessage) (recipient : JID) : List Effect :=
  [.sendMessage true recipient msg]
    ++ (if (c.sendMessageErr recipient msg).isSome then
          [.logError "Error sending message to %s: %v"]
        else [.logInfo "Message sent to %s (server timestamp: %s)"])

/-- The loop `for len(args) > 0 && args[0] != "--"` of `multisend`: the log lines
written, and either the way the command ended inside the loop or the recipients gathered
and the arguments left. -/
def collectRecipients (c : CmdWorld) :
    List String → List JID → List Effect × Except Outcome (List JID × List String)
  | [], recipients => ([], .ok (recipients, []))
  | a :: rest, recipients =>
    if a != "--" then
      match parseJID c a with
      | (logs, .error p) => (logs, .error (.panicked p))
      | (logs, .ok (recipient, ok)) =>
        if !ok then (logs, .error .returned)
        else
          let r := collectRecipients c rest (recipients ++ [recipient])
          (logs ++ r.1, r.2)
    else ([], .ok (recipients, a :: rest))

/-- Case `multisend` of `handleCmd`. Each recipient's goroutine is listed where it is
started, in the order of the recipients. -/
def cmdMultisend (c : CmdWorld) (args : List String) : Run :=
  if args.length < 3 then
    ⟨[.logError "Usage: multisend <jids...> -- <text>"], .returned⟩
  else
    match collectRecipients c args [] with
    | (logs, .error o) => ⟨logs, o⟩
    | (logs, .ok (recipients, args)) =>
      if args.length == 0 then
        ⟨logs ++ [.logError "Usage: multisend <jids...> -- <text> (the -- is required)"],
          .returned⟩
      else
        let msg : OutMessage := { Conversation := some (goBytes (Join (args.drop 1) " ")) }
        ⟨logs ++ (recipients.map (multisendTask c msg)).flatten, .returned⟩

/-- Case `sendpoll` of `handleCmd`. -/
def cmdSendpoll (c : CmdWorld) (args : List String) : Run :=
  if args.length < 7 then
    ⟨[.logError
      "Usage: sendpoll <jid> <max answers> <question> -- <option 1> / <option 2> / ..."],
      .returned⟩
  else
    match args with
    | a0 :: a1 :: rest =>
      match parseJID c a0 with
      | (logs, .error p) => ⟨logs, .panicked p⟩
      | (logs, .ok (recipient, ok)) =>
        if !ok then ⟨logs, .returned⟩
        else
          match c.Atoi a1 with
          | none => ⟨logs ++ [.logError "Number of max answers must be an integer"], .returned⟩
          | some maxAnswers =>
            let remainingArgs := Join rest " "
            let question := TrimSpace (Cut remainingArgs "--").1
            let optionsStr := (Cut remainingArgs "--").2.1
            let options := (Split optionsStr '/').map TrimSpace
            let poll : OutMessage := BuildPollCreation question options maxAnswers
            ⟨logs ++ [.sendMessage false recipient poll] ++ sendLog c recipient poll,
              .returned⟩
    | _ => ⟨[], .panicked .indexOutOfRange⟩

/-- Case `send` of `handleCmd`. -/
def cmdSend (c : CmdWorld) (args : List String) : Run :=
  if args.length < 2 then ⟨[.logError "Usage: send <jid> <text>"], .returned⟩
  else
    match args with
    | a0 :: rest =>
      match parseJID c a0 with
      | (logs, .error p) => ⟨logs, .panicked p⟩
      | (logs, .ok (recipient, ok)) =>
        if !ok then ⟨logs, .returned⟩
        else
          let msg : OutMessage := { Conversation := some (goBytes (Join rest " ")) }
          ⟨logs ++ [.sendMessage false recipient msg] ++ sendLog c recipient msg, .returned⟩
    | _ => ⟨[], .panicked .indexOutOfRange⟩

/-- Function `handleCmd` of `main.go`, for the verbs `reconnect`, `send`, `sendpoll`
and `multisend`; the other verbs are not embedded and give `none`. -/
def handleCmd (c : CmdWorld) (cmd : String) (args : List String) : Option Run :=
  if cmd = "reconnect" then
    some ⟨[.disconnect, .connect]
      ++ (if c.connectErr.isSome then [.logError "Failed to connect: %v"] else []), .returned⟩
  else if cmd = "send" then some (cmdSend c args)
  else if cmd = "sendpoll" then some (cmdSendpoll c args)
  else if cmd = "multisend" then some (cmdMultisend c args)
  else none

/-- Decimal digits to a number. -/
def decimalValue : List Char → Nat → Option Nat
  | [], acc => some acc
  | d :: t, acc =>
    if 48 ≤ d.toNat ∧ d.toNat ≤ 57 then decimalValue t (acc * 10 + (d.toNat - 48)) else none

/-- What `strconv.Atoi` returns on short unsigned or signed decimal numerals. -/
def simpleAtoi (s : String) : Option Int :=
  match s.data with
  | [] => none
  | '-' :: d :: t => (decimalValue (d :: t) 0).map (fun n => -(n : Int))
  | '+' :: d :: t => (decimalValue (d :: t) 0).map (fun n => (n : Int))
  | l => if l.length = 1 ∧ (l = ['-'] ∨ l = ['+']) then none
         else (decimalValue l 0).map (fun n => (n : Int))

/-- A transport library for evaluation: JIDs are their text, the user is the part
before `@`, and every send succeeds unless `failing` says otherwise. -/
def cmdLib (failing : JID → Bool) : CmdWorld :=
  { NewJID := fun user server => ⟨user ++ "@" ++ server⟩
    ParseJID := fun arg => (⟨arg⟩, none)
    User := fun j => ⟨j.str.data.takeWhile (fun ch => ch != '@')⟩
    Atoi := simpleAtoi
    sendMessageErr := fun j _ => if failing j then some "not connected" else none
    connectErr := none }

/-! ## Lemmas on `Contains` and on the branches of `handler` -/

/-- The loop finds an index exactly when one of the `k` indices from `i` on matches. -/
theorem ContainsFrom_iff (f : Nat → Bool) :
    ∀ k i, ContainsFrom f k i = true ↔ ∃ j, i ≤ j ∧ j < i + k ∧ f j = true := by
  intro k
  induction k with
  | zero =>
    intro i
    simp only [ContainsFrom, Bool.false_eq_true, false_iff]
    rintro ⟨j, h1, h2, _⟩
    omega
  | succ k ih =>
    intro i
    unfold ContainsFrom
    by_cases h : f i = true
    · simp only [h, if_true, true_iff]
      exact ⟨i, le_refl _, by omega, h⟩
    · simp only [h, if_false, Bool.false_eq_true]
      rw [ih]
      constructor
      · rintro ⟨j, h1, h2, h3⟩
        exact ⟨j, by omega, by omega, h3⟩
      · rintro ⟨j, h1, h2, h3⟩
        have hne : j ≠ i := by
          intro e
          rw [e] at h3
          exact h h3
        exact ⟨j, by omega, by omega, h3⟩

/-- The call `Contains(len(l), func(i) { return l[i] == s })` is membership of `s` in `l`. -/
theorem Contains_eq_decide_mem (l : List String) (s : String) :
    Contains l.length (fun i => l[i]? == some s) = decide (s ∈ l) := by
  rw [Bool.eq_iff_iff]
  unfold Contains
  rw [ContainsFrom_iff]
  simp only [beq_iff_eq, decide_eq_true_eq, zero_le, zero_add, true_and]
  constructor
  · rintro ⟨j, _, h⟩
    exact List.getElem?_mem h
  · intro h
    obtain ⟨j, hj⟩ := List.mem_iff_getElem?.mp h
    obtain ⟨hlt, _⟩ := List.getElem?_eq_some.mp hj
    exact ⟨j, hlt, hj⟩

/-- The run of the direct plain-text branch when the folded body is in `ktr1`. -/
theorem handleMessage_direct_kotor (w : World) (evt : MessageEvent)
    (hself : evt.Info.IsFromMe = false) (hgroup : evt.Info.IsGroup = false)
    (hmedia : evt.Info.MediaType = "") (hbody : evt.Message.GetConversation ≠ "")
    (hk : w.toLower evt.Message.GetConversation ∈ ktr1) :
    handleMessage w evt =
      ⟨apiKeyCheck w.apiKey
        ++ [.sendMessage true evt.Info.Chat (quotingReply evt (goBytes mktr1))], .returned⟩ := by
  simp [handleMessage, Contains_eq_decide_mem, hself, hgroup, hmedia, hbody, hk]


/-- The run of the direct plain-text branch when the folded body is in `ozip1`. -/
theorem handleMessage_direct_ozip (w : World) (evt : MessageEvent)
    (hself : evt.Info.IsFromMe = false) (hgroup : evt.Info.IsGroup = false)
    (hmedia : evt.Info.MediaType = "") (hbody : evt.Message.GetConversation ≠ "")
    (hk : w.toLower evt.Message.GetConversation ∉ ktr1)
    (ho : w.toLower evt.Message.GetConversation ∈ ozip1) :
    handleMessage w evt =
      ⟨apiKeyCheck w.apiKey
        ++ [.sendMessage true evt.Info.Chat (quotingReply evt (goBytes mozip1))], .returned⟩ := by
  simp [handleMessage, Contains_eq_decide_mem, hself, hgroup, hmedia, hbody, hk, ho]

/-- The run of the direct plain-text branch when the folded body is in `halo1`. -/
theorem handleMessage_direct_halo (w : World) (evt : MessageEvent)
    (hself : evt.Info.IsFromMe = false) (hgroup : evt.Info.IsGroup = false)
    (hmedia : evt.Info.MediaType = "") (hbody : evt.Message.GetConversation ≠ "")
    (hk : w.toLower evt.Message.GetConversation ∉ ktr1)
    (ho : w.toLower evt.Message.GetConversation ∉ ozip1)
    (hh : w.toLower evt.Message.GetConversation ∈ halo1) :
    handleMessage w evt =
      ⟨apiKeyCheck w.apiKey
        ++ [.sendMessage true evt.Info.Chat (quotingReply evt (goBytes mhalo1))], .returned⟩ := by
  simp [handleMessage, Contains_eq_decide_mem, hself, hgroup, hmedia, hbody, hk, ho, hh]

/-- The run of the direct plain-text branch when the folded body is `meow`. -/
theorem handleMessage_direct_meow (w : World) (evt : MessageEvent)
    (hself : evt.Info.IsFromMe = false) (hgroup : evt.Info.IsGroup = false)
    (hmedia : evt.Info.MediaType = "") (hbody : evt.Message.GetConversation ≠ "")
    (hm : w.toLower evt.Message.GetConversation = "meow") :
    handleMessage w evt =
      ⟨apiKeyCheck w.apiKey ++ [.sendMessage false evt.Info.Chat meowPoll], .returned⟩ := by
  have hk : "meow" ∉ ktr1 := by decide
  have ho : "meow" ∉ ozip1 := by decide
  have hh : "meow" ∉ halo1 := by decide
  have hpoll : BuildPollCreation "Apakah kalian suka meow?" ["Suka", "Tidak Suka"] 1
      = meowPoll := by decide
  simp [handleMessage, Contains_eq_decide_mem, hpoll, hself, hgroup, hmedia, hbody, hm, hk,
    ho, hh]

/-- The run of the direct plain-text branch when the folded body matches nothing. -/
theorem handleMessage_direct_none (w : World) (evt : MessageEvent)
    (hself : evt.Info.IsFromMe = false) (hgroup : evt.Info.IsGroup = false)
    (hmedia : evt.Info.MediaType = "") (hbody : evt.Message.GetConversation ≠ "")
    (hk : w.toLower evt.Message.GetConversation ∉ ktr1)
    (ho : w.toLower evt.Message.GetConversation ∉ ozip1)
    (hh : w.toLower evt.Message.GetConversation ∉ halo1)
    (hm : w.toLower evt.Message.GetConversation ≠ "meow") :
    handleMessage w evt =
      match firstChoiceTail (w.createCompletion (directRequest evt)).1 with
      | .error p =>
        ⟨apiKeyCheck w.apiKey ++ [.createCompletion (directRequest evt)]
          ++ completionErrorLog (w.createCompletion (directRequest evt)).2, .panicked p⟩
      | .ok text =>
        ⟨apiKeyCheck w.apiKey ++ [.createCompletion (directRequest evt)]
          ++ completionErrorLog (w.createCompletion (directRequest evt)).2
          ++ [.sendMessage false evt.Info.Chat { Conversation := some text }], .returned⟩ := by
  simp [handleMessage, Contains_eq_decide_mem, directRequest, completionErrorLog, hself, hgroup,
    hmedia, hbody, hk, ho, hh, hm]

/-- The run of the quoted-reply branch when the folded extended text is in `ktr1`. -/
theorem handleMessage_quoted_kotor (w : World) (evt : MessageEvent)
    (hself : evt.Info.IsFromMe = false) (hgroup : evt.Info.IsGroup = false)
    (hmedia : evt.Info.MediaType = "") (hbody : evt.Message.GetConversation = "")
    (htext : GetText evt.Message.GetExtendedTextMessage ≠ "")
    (hk : w.toLower (GetText evt.Message.GetExtendedTextMessage) ∈ ktr1) :
    handleMessage w evt =
      ⟨apiKeyCheck w.apiKey ++ [.createCompletion (quotedRequest evt)]
        ++ completionErrorLog (w.createCompletion (quotedRequest evt)).2
        ++ [.sendMessage true evt.Info.Chat (quotingReply evt (goBytes mktr1))], .returned⟩ := by
  simp [handleMessage, Contains_eq_decide_mem, quotedRequest, completionErrorLog, hself, hgroup,
    hmedia, hbody, htext, hk]

/-- The run of the quoted-reply branch when the folded extended text is in `ozip1`. -/
theorem handleMessage_quoted_ozip (w : World) (evt : MessageEvent)
    (hself : evt.Info.IsFromMe = false) (hgroup : evt.Info.IsGroup = false)
    (hmedia : evt.Info.MediaType = "") (hbody : evt.Message.GetConversation = "")
    (htext : GetText evt.Message.GetExtendedTextMessage ≠ "")
    (hk : w.toLower (GetText evt.Message.GetExtendedTextMessage) ∉ ktr1)
    (ho : w.toLower (GetText evt.Message.GetExtendedTextMessage) ∈ ozip1) :
    handleMessage w evt =
      ⟨apiKeyCheck w.apiKey ++ [.createCompletion (quotedRequest evt)]
        ++ completionErrorLog (w.createCompletion (quotedRequest evt)).2
        ++ [.sendMessage true evt.Info.Chat (quotingReply evt (goBytes mozip1))], .returned⟩ := by
  simp [handleMessage, Contains_eq_decide_mem, quotedRequest, completionErrorLog, hself, hgroup,
    hmedia, hbody, htext, hk, ho]

/-- The run of the quoted-reply branch when the folded extended text is in `halo1`. -/
theorem handleMessage_quoted_halo (w : World) (evt : MessageEvent)
    (hself : evt.Info.IsFromMe = false) (hgroup : evt.Info.IsGroup = false)
    (hmedia : evt.Info.MediaType = "") (hbody : evt.Message.GetConversation = "")
    (htext : GetText evt.Message.GetExtendedTextMessage ≠ "")
    (hk : w.toLower (GetText evt.Message.GetExtendedTextMessage) ∉ ktr1)
    (ho : w.toLower (GetText evt.Message.GetExtendedTextMessage) ∉ ozip1)
    (hh : w.toLower (GetText evt.Message.GetExtendedTextMessage) ∈ halo1) :
    handleMessage w evt =
      ⟨apiKeyCheck w.apiKey ++ [.createCompletion (quotedRequest evt)]
        ++ completionErrorLog (w.createCompletion (quotedRequest evt)).2
        ++ [.sendMessage true evt.Info.Chat (quotingReply evt (goBytes mhalo1))], .returned⟩ := by
  simp [handleMessage, Contains_eq_decide_mem, quotedRequest, completionErrorLog, hself, hgroup,
    hmedia, hbody, htext, hk, ho, hh]

/-- The run of the quoted-reply branch when the folded extended text matches no list. -/
theorem handleMessage_quoted_none (w : World) (evt : MessageEvent)
    (hself : evt.Info.IsFromMe = false) (hgroup : evt.Info.IsGroup = false)
    (hmedia : evt.Info.MediaType = "") (hbody : evt.Message.GetConversation = "")
    (htext : GetText evt.Message.GetExtendedTextMessage ≠ "")
    (hk : w.toLower (GetText evt.Message.GetExtendedTextMessage) ∉ ktr1)
    (ho : w.toLower (GetText evt.Message.GetExtendedTextMessage) ∉ ozip1)
    (hh : w.toLower (GetText evt.Message.GetExtendedTextMessage) ∉ halo1) :
    handleMessage w evt =
      match firstChoiceTail (w.createCompletion (quotedRequest evt)).1 with
      | .error p =>
        ⟨apiKeyCheck w.apiKey ++ [.createCompletion (quotedRequest evt)]
          ++ completionErrorLog (w.createCompletion (quotedRequest evt)).2, .panicked p⟩
      | .ok text =>
        ⟨apiKeyCheck w.apiKey ++ [.createCompletion (quotedRequest evt)]
          ++ completionErrorLog (w.createCompletion (quotedRequest evt)).2
          ++ [.sendMessage false evt.Info.Chat (quotingReply evt text)], .returned⟩ := by
  simp [handleMessage, Contains_eq_decide_mem, quotedRequest, completionErrorLog, hself, hgroup,
    hmedia, hbody, htext, hk, ho, hh]

/-- The run of the unsupported-media branch. -/
theorem handleMessage_media (w : World) (evt : MessageEvent)
    (hself : evt.Info.IsFromMe = false) (hgroup : evt.Info.IsGroup = false)
    (hmedia : evt.Info.MediaType ≠ "") :
    handleMessage w evt =
      ⟨apiKeyCheck w.apiKey
        ++ [.sendMessage true evt.Info.Chat (quotingReply evt (goBytes mediaMsg))], .returned⟩ := by
  simp [handleMessage, hself, hgroup, hmedia]

/-- A direct message with neither a plain body nor an extended text does nothing. -/
theorem handleMessage_empty (w : World) (evt : MessageEvent)
    (hself : evt.Info.IsFromMe = false) (hgroup : evt.Info.IsGroup = false)
    (hmedia : evt.Info.MediaType = "") (hbody : evt.Message.GetConversation = "")
    (htext : GetText evt.Message.GetExtendedTextMessage = "") :
    handleMessage w evt = ⟨apiKeyCheck w.apiKey, .returned⟩ := by
  simp [handleMessage, hself, hgroup, hmedia, hbody, htext]

/-- A group message that is not self-sent does nothing. -/
theorem handleMessage_group (w : World) (evt : MessageEvent)
    (hself : evt.Info.IsFromMe = false) (hgroup : evt.Info.IsGroup = true) :
    handleMessage w evt = ⟨apiKeyCheck w.apiKey, .returned⟩ := by
  simp [handleMessage, hself, hgroup]

/-- The run on a self-sent message: only the self-command branch is reachable. -/
theorem handleMessage_self (w : World) (evt : MessageEvent)
    (hself : evt.Info.IsFromMe = true) :
    handleMessage w evt =
      if evt.Info.MediaType = "" ∧ evt.Message.GetConversation ≠ "" then
        if w.toLower evt.Message.GetConversation = "!status" then
          ⟨apiKeyCheck w.apiKey ++ [.cmdOutput false "neofetch" ["--stdout"]]
            ++ (if (w.cmdOutput "neofetch" ["--stdout"]).2.isSome
                then [.println "could not run command: "]
                else [.cmdOutput true "neofetch" ["--stdout"]])
            ++ [.sendMessage false evt.Info.Chat
                (quotingReply evt (w.cmdOutput "neofetch" ["--stdout"]).1)], .returned⟩
        else if w.toLower evt.Message.GetConversation = "!speedtest" then
          ⟨apiKeyCheck w.apiKey ++ [.cmdOutput false "speedtest" ["--progress=no"]]
            ++ (if (w.cmdOutput "speedtest" ["--progress=no"]).2.isSome
                then [.println "could not run command: "] else [])
            ++ [.sendMessage false evt.Info.Chat
                (quotingReply evt (w.cmdOutput "speedtest" ["--progress=no"]).1)], .returned⟩
        else ⟨apiKeyCheck w.apiKey, .returned⟩
      else ⟨apiKeyCheck w.apiKey, .returned⟩ := by
  by_cases hm : evt.Info.MediaType = "" <;> by_cases hb : evt.Message.GetConversation = ""
    <;> simp [handleMessage, hself, hm, hb]

/-! ## Projections of the pieces of a run -/

/-- The API-key check sends nothing. -/
@[simp] theorem apiKeyCheck_asSend (k : String) :
    (apiKeyCheck k).filterMap Effect.asSend = [] := by
  unfold apiKeyCheck
  split <;> rfl

/-- The API-key check makes no completion request. -/
@[simp] theorem apiKeyCheck_asCompletion (k : String) :
    (apiKeyCheck k).filterMap Effect.asCompletion = [] := by
  unfold apiKeyCheck
  split <;> rfl

/-- The completion error log sends nothing. -/
@[simp] theorem completionErrorLog_asSend (e : Option String) :
    (completionErrorLog e).filterMap Effect.asSend = [] := by
  unfold completionErrorLog
  split <;> rfl

/-- The completion error log makes no completion request. -/
@[simp] theorem completionErrorLog_asCompletion (e : Option String) :
    (completionErrorLog e).filterMap Effect.asCompletion = [] := by
  unfold completionErrorLog
  split <;> rfl

/-- No profanity term is a name alias, a greeting or `meow`. -/
theorem ktr1_disjoint : ∀ s ∈ ktr1, s ∉ ozip1 ∧ s ∉ halo1 ∧ s ≠ "meow" := by decide

/-- No name alias is a profanity term, a greeting or `meow`. -/
theorem ozip1_disjoint : ∀ s ∈ ozip1, s ∉ ktr1 ∧ s ∉ halo1 ∧ s ≠ "meow" := by decide

/-- No greeting is a profanity term, a name alias or `meow`. -/
theorem halo1_disjoint : ∀ s ∈ halo1, s ∉ ktr1 ∧ s ∉ ozip1 ∧ s ≠ "meow" := by decide

/-- Membership in the three lists together. -/
theorem mem_keywords (s : String) : s ∈ keywords ↔ s ∈ ktr1 ∨ s ∈ ozip1 ∨ s ∈ halo1 := by
  simp [keywords, or_assoc]

/-- No keyword has leading or trailing whitespace. -/
theorem trimSpace_keyword : ∀ s ∈ keywords ++ ["meow"], trimSpace s = s := by decide

set_option maxRecDepth 1000000 in
/-- No name alias, greeting or poll trigger contains a profanity term. -/
theorem no_term_inside_other :
    ∀ e ∈ ozip1 ++ halo1 ++ ["meow"], ∀ t ∈ ktr1, ¬ (t.data <:+: e.data) := by decide

/-- What the direct plain-text branch shows to the outside on a body matching nothing. -/
theorem direct_none_observable (w : World) (evt : MessageEvent)
    (hself : evt.Info.IsFromMe = false) (hgroup : evt.Info.IsGroup = false)
    (hmedia : evt.Info.MediaType = "") (hbody : evt.Message.GetConversation ≠ "")
    (hk : w.toLower evt.Message.GetConversation ∉ ktr1)
    (ho : w.toLower evt.Message.GetConversation ∉ ozip1)
    (hh : w.toLower evt.Message.GetConversation ∉ halo1)
    (hm : w.toLower evt.Message.GetConversation ≠ "meow") :
    (handler w (.Message evt)).completions = [directRequest evt] ∧
    (handler w (.Message evt)).sends =
      match firstChoiceTail (w.createCompletion (directRequest evt)).1 with
      | .ok text => [(evt.Info.Chat, { Conversation := some text })]
      | .error _ => [] := by
  simp only [handler]
  rw [handleMessage_direct_none w evt hself hgroup hmedia hbody hk ho hh hm]
  cases firstChoiceTail (w.createCompletion (directRequest evt)).1 <;>
    simp [Run.sends, Run.completions, Effect.asSend, Effect.asCompletion]

/-- What `handler` shows to the outside on a self-sent message. -/
theorem self_observable (w : World) (evt : MessageEvent)
    (hself : evt.Info.IsFromMe = true) :
    (handler w (.Message evt)).completions = [] ∧
    (handler w (.Message evt)).sends =
      if evt.Info.MediaType = "" ∧ evt.Message.GetConversation ≠ "" then
        if w.toLower evt.Message.GetConversation = "!status" then
          [(evt.Info.Chat, quotingReply evt (w.cmdOutput "neofetch" ["--stdout"]).1)]
        else if w.toLower evt.Message.GetConversation = "!speedtest" then
          [(evt.Info.Chat, quotingReply evt (w.cmdOutput "speedtest" ["--progress=no"]).1)]
        else []
      else [] := by
  simp only [handler]
  rw [handleMessage_self w evt hself]
  by_cases h1 : evt.Info.MediaType = "" ∧ evt.Message.GetConversation ≠ ""
  · by_cases h2 : w.toLower evt.Message.GetConversation = "!status"
    · by_cases h3 : (w.cmdOutput "neofetch" ["--stdout"]).2.isSome = true <;>
        simp [h1, h2, h3, Run.sends, Run.completions, Effect.asSend, Effect.asCompletion]
    · by_cases h4 : w.toLower evt.Message.GetConversation = "!speedtest"
      · by_cases h3 : (w.cmdOutput "speedtest" ["--progress=no"]).2.isSome = true <;>
          simp [h1, h4, h3, Run.sends, Run.completions, Effect.asSend, Effect.asCompletion]
      · simp [h1, h2, h4, Run.sends, Run.completions]
  · simp [h1, Run.sends, Run.completions]

/-- What the quoted-reply branch shows to the outside: the completion request is made
in every case, and the reply is chosen by the folded extended text. -/
theorem quoted_observable (w : World) (evt : MessageEvent)
    (hself : evt.Info.IsFromMe = false) (hgroup : evt.Info.IsGroup = false)
    (hmedia : evt.Info.MediaType = "") (hbody : evt.Message.GetConversation = "")
    (htext : GetText evt.Message.GetExtendedTextMessage ≠ "") :
    (handler w (.Message evt)).completions = [quotedRequest evt] ∧
    (handler w (.Message evt)).sends =
      if w.toLower (GetText evt.Message.GetExtendedTextMessage) ∈ ktr1 then
        [(evt.Info.Chat, quotingReply evt (goBytes mktr1))]
      else if w.toLower (GetText evt.Message.GetExtendedTextMessage) ∈ ozip1 then
        [(evt.Info.Chat, quotingReply evt (goBytes mozip1))]
      else if w.toLower (GetText evt.Message.GetExtendedTextMessage) ∈ halo1 then
        [(evt.Info.Chat, quotingReply evt (goBytes mhalo1))]
      else
        match firstChoiceTail (w.createCompletion (quotedRequest evt)).1 with
        | .ok text => [(evt.Info.Chat, quotingReply evt text)]
        | .error _ => [] := by
  simp only [handler]
  by_cases hk : w.toLower (GetText evt.Message.GetExtendedTextMessage) ∈ ktr1
  · rw [handleMessage_quoted_kotor w evt hself hgroup hmedia hbody htext hk]
    simp [hk, Run.sends, Run.completions, Effect.asSend, Effect.asCompletion]
  · by_cases ho : w.toLower (GetText evt.Message.GetExtendedTextMessage) ∈ ozip1
    · rw [handleMessage_quoted_ozip w evt hself hgroup hmedia hbody htext hk ho]
      simp [hk, ho, Run.sends, Run.completions, Effect.asSend, Effect.asCompletion]
    · by_cases hh : w.toLower (GetText evt.Message.GetExtendedTextMessage) ∈ halo1
      · rw [handleMessage_quoted_halo w evt hself hgroup hmedia hbody htext hk ho hh]
        simp [hk, ho, hh, Run.sends, Run.completions, Effect.asSend, Effect.asCompletion]
      · rw [handleMessage_quoted_none w evt hself hgroup hmedia hbody htext hk ho hh]
        cases firstChoiceTail (w.createCompletion (quotedRequest evt)).1 <;>
          simp [hk, ho, hh, Run.sends, Run.completions, Effect.asSend, Effect.asCompletion]

/-- What the direct plain-text branch shows to the outside on a keyword or `meow`. -/
theorem direct_match_observable (w : World) (evt : MessageEvent)
    (hself : evt.Info.IsFromMe = false) (hgroup : evt.Info.IsGroup = false)
    (hmedia : evt.Info.MediaType = "") (hbody : evt.Message.GetConversation ≠ "")
    (hin : w.toLower evt.Message.GetConversation ∈ keywords ++ ["meow"]) :
    (handler w (.Message evt)).completions = [] ∧
    (handler w (.Message evt)).sends =
      if w.toLower evt.Message.GetConversation ∈ ktr1 then
        [(evt.Info.Chat, quotingReply evt (goBytes mktr1))]
      else if w.toLower evt.Message.GetConversation ∈ ozip1 then
        [(evt.Info.Chat, quotingReply evt (goBytes mozip1))]
      else if w.toLower evt.Message.GetConversation ∈ halo1 then
        [(evt.Info.Chat, quotingReply evt (goBytes mhalo1))]
      else [(evt.Info.Chat, meowPoll)] := by
  simp only [handler]
  by_cases hk : w.toLower evt.Message.GetConversation ∈ ktr1
  · rw [handleMessage_direct_kotor w evt hself hgroup hmedia hbody hk]
    simp [hk, Run.sends, Run.completions, Effect.asSend, Effect.asCompletion]
  · by_cases ho : w.toLower evt.Message.GetConversation ∈ ozip1
    · rw [handleMessage_direct_ozip w evt hself hgroup hmedia hbody hk ho]
      simp [hk, ho, Run.sends, Run.completions, Effect.asSend, Effect.asCompletion]
    · by_cases hh : w.toLower evt.Message.GetConversation ∈ halo1
      · rw [handleMessage_direct_halo w evt hself hgroup hmedia hbody hk ho hh]
        simp [hk, ho, hh, Run.sends, Run.completions, Effect.asSend, Effect.asCompletion]
      · have hm : w.toLower evt.Message.GetConversation = "meow" := by
          simpa [mem_keywords, hk, ho, hh] using hin
        rw [handleMessage_direct_meow w evt hself hgroup hmedia hbody hm]
        simp [hk, ho, hh, Run.sends, Run.completions, Effect.asSend, Effect.asCompletion]

/-! ## Claims -/

/-- C1: for a message that is not from self, not in a group chat, has an empty media
type and a non-empty plain body, if the lower-cased body is an entry of the profanity,
name-alias or greeting list, `handler` sends exactly one message, to the message's
chat: the quoting reply whose text is that list's canned message and whose quote
reference is (message id, sender); it makes no completion request. -/
theorem handler_keyword_canned_reply (w : World) (evt : MessageEvent)
    (hself : evt.Info.IsFromMe = false) (hgroup : evt.Info.IsGroup = false)
    (hmedia : evt.Info.MediaType = "") (hbody : evt.Message.GetConversation ≠ "") :
    (w.toLower evt.Message.GetConversation ∈ ktr1 →
      (handler w (.Message evt)).sends
        = [(evt.Info.Chat, quotingReply evt (goBytes mktr1))]) ∧
    (w.toLower evt.Message.GetConversation ∈ ozip1 →
      (handler w (.Message evt)).sends
        = [(evt.Info.Chat, quotingReply evt (goBytes mozip1))]) ∧
    (w.toLower evt.Message.GetConversation ∈ halo1 →
      (handler w (.Message evt)).sends
        = [(evt.Info.Chat, quotingReply evt (goBytes mhalo1))]) ∧
    (w.toLower evt.Message.GetConversation ∈ keywords →
      (handler w (.Message evt)).completions = []) ∧
    (∀ text, (quotingReply evt text).text = some text ∧
      (quotingReply evt text).quote = some (evt.Info.ID, evt.Info.Sender.String)) := by
  have hK : w.toLower evt.Message.GetConversation ∈ ktr1 →
      handler w (.Message evt) = ⟨apiKeyCheck w.apiKey
        ++ [.sendMessage true evt.Info.Chat (quotingReply evt (goBytes mktr1))], .returned⟩ :=
    fun hk => handleMessage_direct_kotor w evt hself hgroup hmedia hbody hk
  have hO : w.toLower evt.Message.GetConversation ∈ ozip1 →
      handler w (.Message evt) = ⟨apiKeyCheck w.apiKey
        ++ [.sendMessage true evt.Info.Chat (quotingReply evt (goBytes mozip1))], .returned⟩ :=
    fun ho => handleMessage_direct_ozip w evt hself hgroup hmedia hbody
      (ozip1_disjoint _ ho).1 ho
  have hH : w.toLower evt.Message.GetConversation ∈ halo1 →
      handler w (.Message evt) = ⟨apiKeyCheck w.apiKey
        ++ [.sendMessage true evt.Info.Chat (quotingReply evt (goBytes mhalo1))], .returned⟩ :=
    fun hh => handleMessage_direct_halo w evt hself hgroup hmedia hbody
      (halo1_disjoint _ hh).1 (halo1_disjoint _ hh).2.1 hh
  refine ⟨?_, ?_, ?_, ?_, ?_⟩
  · intro h
    rw [hK h]
    simp [Run.sends, Effect.asSend]
  · intro h
    rw [hO h]
    simp [Run.sends, Effect.asSend]
  · intro h
    rw [hH h]
    simp [Run.sends, Effect.asSend]
  · intro h
    rcases (mem_keywords _).mp h with h | h | h
    · rw [hK h]
      simp [Run.completions, Effect.asCompletion]
    · rw [hO h]
      simp [Run.completions, Effect.asCompletion]
    · rw [hH h]
      simp [Run.completions, Effect.asCompletion]
  · intro text
    simp [quotingReply, OutMessage.text, OutMessage.quote]

/-- Witness of C1: the body `HALO` gets the canned greeting, quoting the trigger. -/
theorem handler_keyword_canned_reply_witness :
    (handler (okWorld " baik") (.Message (plainMsg "HALO"))).sends
      = [((plainMsg "HALO").Info.Chat, quotingReply (plainMsg "HALO") (goBytes mhalo1))] ∧
    (handler (okWorld " baik") (.Message (plainMsg "HALO"))).completions = [] :=
  have h := handler_keyword_canned_reply (okWorld " baik") (plainMsg "HALO")
    rfl rfl rfl (by decide)
  ⟨h.2.2.1 (by decide), h.2.2.2.1 (by decide)⟩

/-- C2, as stated, fails: the body `asuu` contains the profanity term `asu` and is
strictly longer than it, yet it is itself a list entry and gets the profanity reply. -/
theorem contains_term_counterexample :
    "asu" ∈ ktr1 ∧ "asu".data <:+: (asciiLower "asuu").data ∧
    "asu".length < (asciiLower "asuu").length ∧
    (handler (okWorld " baik") (.Message (plainMsg "asuu"))).sends
      = [((plainMsg "asuu").Info.Chat, quotingReply (plainMsg "asuu") (goBytes mktr1))] ∧
    (handler (okWorld " baik") (.Message (plainMsg "asuu"))).completions = [] := by
  refine ⟨by decide, by decide, by decide, by decide, by decide⟩

/-- C2, amended: a direct plain body whose case-folded text contains a profanity term,
is strictly longer than it and is not itself an entry of the profanity list matches no
keyword: `handler` makes the completion request for the body and sends at most the plain
completion reply, never a canned reply. -/
theorem handler_contains_term_none (w : World) (evt : MessageEvent)
    (hself : evt.Info.IsFromMe = false) (hgroup : evt.Info.IsGroup = false)
    (hmedia : evt.Info.MediaType = "") (hbody : evt.Message.GetConversation ≠ "")
    (t : String) (ht : t ∈ ktr1)
    (hsub : t.data <:+: (w.toLower evt.Message.GetConversation).data)
    (_hlen : t.length < (w.toLower evt.Message.GetConversation).length)
    (hne : w.toLower evt.Message.GetConversation ∉ ktr1) :
    (handler w (.Message evt)).completions = [directRequest evt] ∧
    (handler w (.Message evt)).sends =
      match firstChoiceTail (w.createCompletion (directRequest evt)).1 with
      | .ok text => [(evt.Info.Chat, { Conversation := some text })]
      | .error _ => [] := by
  have hother : w.toLower evt.Message.GetConversation ∉ ozip1 ++ halo1 ++ ["meow"] :=
    fun hin => no_term_inside_other _ hin t ht hsub
  simp only [List.mem_append, List.mem_singleton, not_or] at hother
  exact direct_none_observable w evt hself hgroup hmedia hbody hne hother.1.1 hother.1.2
    hother.2

/-- Witness of C2, amended: the body `dasar asu` contains `asu` and goes to completion. -/
theorem handler_contains_term_none_witness :
    (handler (okWorld " baik") (.Message (plainMsg "dasar asu"))).completions
      = [directRequest (plainMsg "dasar asu")] ∧
    (handler (okWorld " baik") (.Message (plainMsg "dasar asu"))).sends =
      match firstChoiceTail
        ((okWorld " baik").createCompletion (directRequest (plainMsg "dasar asu"))).1 with
      | .ok text => [((plainMsg "dasar asu").Info.Chat, { Conversation := some text })]
      | .error _ => [] :=
  handler_contains_term_none (okWorld " baik") (plainMsg "dasar asu") rfl rfl rfl (by decide)
    "asu" (by decide) (by decide) (by decide) (by decide)

set_option maxRecDepth 100000 in
/-- C3, as stated, fails: the body ` halo ` equals the greeting `halo` once trimmed, but
`handler` does not trim; it sends no canned greeting and makes a completion request,
unlike for the body `halo` itself. -/
theorem trimmed_body_counterexample :
    trimSpace (asciiLower " halo ") = "halo" ∧ "halo" ∈ halo1 ∧
    (handler (okWorld " baik") (.Message (plainMsg "halo"))).sends
      = [((plainMsg "halo").Info.Chat, quotingReply (plainMsg "halo") (goBytes mhalo1))] ∧
    (handler (okWorld " baik") (.Message (plainMsg " halo "))).sends
      = [((plainMsg " halo ").Info.Chat, { Conversation := some (goBytes "baik") })] ∧
    (handler (okWorld " baik") (.Message (plainMsg " halo "))).completions
      = [completionRequest "You:  halo \nFriend: "] := by
  refine ⟨by decide, by decide, by decide, by decide, by decide⟩

/-- C3, amended: keyword classification is decided on the full case-folded body, not
trimmed. A direct plain body whose case-folded text is itself a list entry gets that
list's canned reply; one whose case-folded text equals a keyword only after removing
leading and trailing whitespace matches no keyword, and `handler` makes the completion
request for it and sends at most the plain completion reply. -/
theorem handler_untrimmed_body (w : World) (evt : MessageEvent)
    (hself : evt.Info.IsFromMe = false) (hgroup : evt.Info.IsGroup = false)
    (hmedia : evt.Info.MediaType = "") (hbody : evt.Message.GetConversation ≠ "") :
    (w.toLower evt.Message.GetConversation ∈ keywords →
      ∃ canned, (handler w (.Message evt)).sends
          = [(evt.Info.Chat, quotingReply evt (goBytes canned))] ∧
        (w.toLower evt.Message.GetConversation ∈ ktr1 → canned = mktr1) ∧
        (w.toLower evt.Message.GetConversation ∈ ozip1 → canned = mozip1) ∧
        (w.toLower evt.Message.GetConversation ∈ halo1 → canned = mhalo1)) ∧
    (trimSpace (w.toLower evt.Message.GetConversation) ∈ keywords ++ ["meow"] →
      w.toLower evt.Message.GetConversation
        ≠ trimSpace (w.toLower evt.Message.GetConversation) →
      (handler w (.Message evt)).completions = [directRequest evt] ∧
      (handler w (.Message evt)).sends =
        match firstChoiceTail (w.createCompletion (directRequest evt)).1 with
        | .ok text => [(evt.Info.Chat, { Conversation := some text })]
        | .error _ => []) := by
  constructor
  · intro h
    simp only [handler]
    rcases (mem_keywords _).mp h with hk | ho | hh
    · refine ⟨mktr1, ?_, fun _ => rfl, fun h2 => ?_, fun h2 => ?_⟩
      · rw [handleMessage_direct_kotor w evt hself hgroup hmedia hbody hk]
        simp [Run.sends, Effect.asSend]
      · exact absurd h2 (ktr1_disjoint _ hk).1
      · exact absurd h2 (ktr1_disjoint _ hk).2.1
    · refine ⟨mozip1, ?_, fun h2 => ?_, fun _ => rfl, fun h2 => ?_⟩
      · rw [handleMessage_direct_ozip w evt hself hgroup hmedia hbody
          (ozip1_disjoint _ ho).1 ho]
        simp [Run.sends, Effect.asSend]
      · exact absurd h2 (ozip1_disjoint _ ho).1
      · exact absurd h2 (ozip1_disjoint _ ho).2.1
    · refine ⟨mhalo1, ?_, fun h2 => ?_, fun h2 => ?_, fun _ => rfl⟩
      · rw [handleMessage_direct_halo w evt hself hgroup hmedia hbody
          (halo1_disjoint _ hh).1 (halo1_disjoint _ hh).2.1 hh]
        simp [Run.sends, Effect.asSend]
      · exact absurd h2 (halo1_disjoint _ hh).1
      · exact absurd h2 (halo1_disjoint _ hh).2.1
  · intro _ hne
    have hnot : w.toLower evt.Message.GetConversation ∉ keywords ++ ["meow"] :=
      fun hin => hne (trimSpace_keyword _ hin).symm
    simp only [List.mem_append, List.mem_singleton, not_or, mem_keywords] at hnot
    exact direct_none_observable w evt hself hgroup hmedia hbody hnot.1.1 hnot.1.2.1
      hnot.1.2.2 hnot.2

/-- Witness of C3, amended: the bodies `halo` and ` halo `. -/
theorem handler_untrimmed_body_witness :
    (∃ canned, (handler (okWorld " baik") (.Message (plainMsg "halo"))).sends
        = [((plainMsg "halo").Info.Chat, quotingReply (plainMsg "halo") (goBytes canned))] ∧
      ((okWorld " baik").toLower (plainMsg "halo").Message.GetConversation ∈ ktr1
        → canned = mktr1) ∧
      ((okWorld " baik").toLower (plainMsg "halo").Message.GetConversation ∈ ozip1
        → canned = mozip1) ∧
      ((okWorld " baik").toLower (plainMsg "halo").Message.GetConversation ∈ halo1
        → canned = mhalo1)) ∧
    (handler (okWorld " baik") (.Message (plainMsg " halo "))).completions
      = [directRequest (plainMsg " halo ")] :=
  ⟨(handler_untrimmed_body (okWorld " baik") (plainMsg "halo") rfl rfl rfl (by decide)).1
      (by decide),
    ((handler_untrimmed_body (okWorld " baik") (plainMsg " halo ") rfl rfl rfl (by decide)).2
      (by decide) (by decide)).1⟩

/-- C4, as stated, fails: a self-sent `!status` in a group chat is answered; the reply
goes to the group chat. -/
theorem group_self_counterexample :
    (selfMsg true "!status").Info.IsGroup = true ∧
    (handler cmdWorld (.Message (selfMsg true "!status"))).sends
      = [(⟨"120363@g.us"⟩, quotingReply (selfMsg true "!status") (goBytes "up"))] := by
  refine ⟨by decide, by decide⟩

/-- C4, amended: for a message in a group chat, whatever its media type, body or quoted
text, `handler` makes no completion request; it sends nothing when the message is not
from self, and a send happens only for a self-sent message with empty media type whose
lower-cased plain body is `!status` or `!speedtest`. -/
theorem handler_group_silent (w : World) (evt : MessageEvent)
    (hgroup : evt.Info.IsGroup = true) :
    (handler w (.Message evt)).completions = [] ∧
    (evt.Info.IsFromMe = false → (handler w (.Message evt)).sends = []) ∧
    ((handler w (.Message evt)).sends ≠ [] →
      evt.Info.IsFromMe = true ∧ evt.Info.MediaType = "" ∧
      (w.toLower evt.Message.GetConversation = "!status" ∨
        w.toLower evt.Message.GetConversation = "!speedtest")) := by
  cases hself : evt.Info.IsFromMe
  · simp only [handler]
    rw [handleMessage_group w evt hself hgroup]
    simp [Run.sends, Run.completions]
  · obtain ⟨hc, hs⟩ := self_observable w evt hself
    refine ⟨hc, fun h => Bool.noConfusion h, fun hne => ?_⟩
    rw [hs] at hne
    by_cases h1 : evt.Info.MediaType = "" ∧ evt.Message.GetConversation ≠ ""
    · by_cases h2 : w.toLower evt.Message.GetConversation = "!status"
      · exact ⟨rfl, h1.1, Or.inl h2⟩
      · by_cases h4 : w.toLower evt.Message.GetConversation = "!speedtest"
        · exact ⟨rfl, h1.1, Or.inr h4⟩
        · simp [h1, h2, h4] at hne
    · simp [h1] at hne

/-- Witness of C4, amended: a group message `halo` from somebody else. -/
theorem handler_group_silent_witness :
    (handler (okWorld " baik")
      (.Message { plainMsg "halo" with
        Info := { (plainMsg "halo").Info with IsGroup := true } })).completions = [] ∧
    (handler (okWorld " baik")
      (.Message { plainMsg "halo" with
        Info := { (plainMsg "halo").Info with IsGroup := true } })).sends = [] :=
  have h := handler_group_silent (okWorld " baik")
    { plainMsg "halo" with Info := { (plainMsg "halo").Info with IsGroup := true } } rfl
  ⟨h.1, h.2.1 rfl⟩

/-- C5: the completion-backed reply of the direct plain-text branch breaks the quoting
rule. For the plain body `apa kabar` the reply sent is a plain conversation message: it
is no poll and carries no quote reference to the trigger, while the completion-backed
reply to the same text arriving as extended text carries the quote reference
(message id, sender). -/
theorem plain_completion_reply_unquoted :
    (handler (okWorld " baik") (.Message (plainMsg "apa kabar"))).sends
      = [((plainMsg "apa kabar").Info.Chat, { Conversation := some (goBytes "baik") })] ∧
    ({ Conversation := some (goBytes "baik") } : OutMessage).quote = none ∧
    ({ Conversation := some (goBytes "baik") } : OutMessage).PollCreationMessage = none ∧
    (handler (okWorld " baik") (.Message (extMsg "apa kabar" none))).sends.map
        (fun p => p.2.quote)
      = [some ((extMsg "apa kabar" none).Info.ID,
          (extMsg "apa kabar" none).Info.Sender.String)] := by
  refine ⟨by decide, by decide, by decide, by decide⟩

/-- Where the quote reference is set: every message `handler` sends for a message event
goes to the message's chat, and the only ones without the quote reference
(message id, sender) are the poll and the completion-backed reply of the direct
plain-text branch. -/
theorem handler_reply_quotes_trigger (w : World) (evt : MessageEvent)
    (p : JID × OutMessage) (hp : p ∈ (handler w (.Message evt)).sends) :
    p.1 = evt.Info.Chat ∧
    (p.2.quote = some (evt.Info.ID, evt.Info.Sender.String) ∨
      p.2 = meowPoll ∨
      (evt.Info.IsFromMe = false ∧ evt.Info.IsGroup = false ∧ evt.Info.MediaType = "" ∧
        evt.Message.GetConversation ≠ "" ∧
        w.toLower evt.Message.GetConversation ∉ keywords ++ ["meow"] ∧
        ∃ text, firstChoiceTail (w.createCompletion (directRequest evt)).1 = .ok text ∧
          p.2 = { Conversation := some text })) := by
  have hq : ∀ text, (quotingReply evt text).quote
      = some (evt.Info.ID, evt.Info.Sender.String) := fun text => rfl
  cases hself : evt.Info.IsFromMe
  · cases hgroup : evt.Info.IsGroup
    · by_cases hmedia : evt.Info.MediaType = ""
      · by_cases hbody : evt.Message.GetConversation = ""
        · by_cases htext : GetText evt.Message.GetExtendedTextMessage = ""
          · simp only [handler] at hp
            rw [handleMessage_empty w evt hself hgroup hmedia hbody htext] at hp
            simp [Run.sends] at hp
          · rw [(quoted_observable w evt hself hgroup hmedia hbody htext).2] at hp
            split_ifs at hp
            · simp only [List.mem_singleton] at hp
              subst hp
              exact ⟨rfl, Or.inl (hq _)⟩
            · simp only [List.mem_singleton] at hp
              subst hp
              exact ⟨rfl, Or.inl (hq _)⟩
            · simp only [List.mem_singleton] at hp
              subst hp
              exact ⟨rfl, Or.inl (hq _)⟩
            · cases hf : firstChoiceTail (w.createCompletion (quotedRequest evt)).1 with
              | error e =>
                rw [hf] at hp
                simp at hp
              | ok text =>
                rw [hf] at hp
                simp only [List.mem_singleton] at hp
                subst hp
                exact ⟨rfl, Or.inl (hq _)⟩
        · by_cases hin : w.toLower evt.Message.GetConversation ∈ keywords ++ ["meow"]
          · rw [(direct_match_observable w evt hself hgroup hmedia hbody hin).2] at hp
            split_ifs at hp
            · simp only [List.mem_singleton] at hp
              subst hp
              exact ⟨rfl, Or.inl (hq _)⟩
            · simp only [List.mem_singleton] at hp
              subst hp
              exact ⟨rfl, Or.inl (hq _)⟩
            · simp only [List.mem_singleton] at hp
              subst hp
              exact ⟨rfl, Or.inl (hq _)⟩
            · simp only [List.mem_singleton] at hp
              subst hp
              exact ⟨rfl, Or.inr (Or.inl rfl)⟩
          · have hnot := hin
            simp only [List.mem_append, List.mem_singleton, not_or, mem_keywords] at hnot
            rw [(direct_none_observable w evt hself hgroup hmedia hbody hnot.1.1 hnot.1.2.1
              hnot.1.2.2 hnot.2).2] at hp
            cases hf : firstChoiceTail (w.createCompletion (directRequest evt)).1 with
            | error e =>
              rw [hf] at hp
              simp at hp
            | ok text =>
              rw [hf] at hp
              simp only [List.mem_singleton] at hp
              subst hp
              exact ⟨rfl, Or.inr (Or.inr ⟨rfl, rfl, hmedia, hbody, hin, text, rfl, rfl⟩)⟩
      · simp only [handler] at hp
        rw [handleMessage_media w evt hself hgroup hmedia] at hp
        simp only [Run.sends, List.filterMap_append, apiKeyCheck_asSend, List.nil_append,
          List.filterMap_cons, Effect.asSend, List.filterMap_nil, List.mem_singleton] at hp
        subst hp
        exact ⟨rfl, Or.inl (hq _)⟩
    · simp only [handler] at hp
      rw [handleMessage_group w evt hself hgroup] at hp
      simp [Run.sends] at hp
  · rw [(self_observable w evt hself).2] at hp
    split_ifs at hp
    · simp only [List.mem_singleton] at hp
      subst hp
      exact ⟨rfl, Or.inl (hq _)⟩
    · simp only [List.mem_singleton] at hp
      subst hp
      exact ⟨rfl, Or.inl (hq _)⟩
    · simp at hp
    · simp at hp

set_option maxRecDepth 100000 in
/-- The canned greeting sent for `halo` quotes the trigger. -/
theorem handler_reply_quotes_trigger_witness :
    ((plainMsg "halo").Info.Chat, quotingReply (plainMsg "halo") (goBytes mhalo1)).1
      = (plainMsg "halo").Info.Chat ∧
    ((quotingReply (plainMsg "halo") (goBytes mhalo1)).quote
        = some ((plainMsg "halo").Info.ID, (plainMsg "halo").Info.Sender.String) ∨
      quotingReply (plainMsg "halo") (goBytes mhalo1) = meowPoll ∨
      ((plainMsg "halo").Info.IsFromMe = false ∧ (plainMsg "halo").Info.IsGroup = false ∧
        (plainMsg "halo").Info.MediaType = "" ∧
        (plainMsg "halo").Message.GetConversation ≠ "" ∧
        (okWorld " baik").toLower (plainMsg "halo").Message.GetConversation
          ∉ keywords ++ ["meow"] ∧
        ∃ text, firstChoiceTail
            ((okWorld " baik").createCompletion (directRequest (plainMsg "halo"))).1
              = .ok text ∧
          quotingReply (plainMsg "halo") (goBytes mhalo1) = { Conversation := some text })) :=
  handler_reply_quotes_trigger (okWorld " baik") (plainMsg "halo")
    ((plainMsg "halo").Info.Chat, quotingReply (plainMsg "halo") (goBytes mhalo1))
    (by decide)

/-- C6: on a completion error `handler` logs `CGPT Error` and then indexes the empty
result: the run ends in an index-out-of-range panic instead of returning, in the direct
plain-text branch and in the quoted-reply branch alike. No reply is sent. -/
theorem completion_error_panics :
    handler errWorld (.Message (plainMsg "apa kabar"))
      = ⟨[.createCompletion (completionRequest "You: apa kabar\nFriend: "),
          .logError "CGPT Error"], .panicked .indexOutOfRange⟩ ∧
    handler errWorld (.Message (extMsg "apa kabar" (some "siapa kamu")))
      = ⟨[.createCompletion (completionRequest "Friend: siapa kamu\nYou: apa kabar\nFriend: "),
          .logError "CGPT Error"], .panicked .indexOutOfRange⟩ := by
  refine ⟨by decide, by decide⟩

set_option maxRecDepth 100000 in
/-- C7, as stated, fails: a message `apa kabar` quoting the greeting `halo` gets the
completion-backed reply, and a message `halo` quoting `apa kabar` gets the canned
greeting: the new message's own text is classified, not the quoted parent's. -/
theorem quoted_text_counterexample :
    asciiLower "halo" ∈ halo1 ∧ asciiLower "apa kabar" ∉ keywords ∧
    (handler (okWorld " baik") (.Message (extMsg "apa kabar" (some "halo")))).sends
      = [((extMsg "apa kabar" (some "halo")).Info.Chat,
          quotingReply (extMsg "apa kabar" (some "halo")) (goBytes "baik"))] ∧
    (handler (okWorld " baik") (.Message (extMsg "halo" (some "apa kabar")))).sends
      = [((extMsg "halo" (some "apa kabar")).Info.Chat,
          quotingReply (extMsg "halo" (some "apa kabar")) (goBytes mhalo1))] := by
  refine ⟨by decide, by decide, by decide, by decide⟩

/-- C7, amended: in the quoted-reply branch (not self, not group, empty media type, no
plain body, non-empty extended text) the choice between a canned and a completion-backed
reply is decided by the new message's own extended text, whatever the quoted parent's
text is: if it case-folds to a keyword-list entry the single message sent is that list's
canned reply, and if it matches no list the only message that can be sent is the
completion-backed reply, quoting the trigger. -/
theorem handler_quoted_branch_classifies_own_text (w : World) (evt : MessageEvent)
    (hself : evt.Info.IsFromMe = false) (hgroup : evt.Info.IsGroup = false)
    (hmedia : evt.Info.MediaType = "") (hbody : evt.Message.GetConversation = "")
    (htext : GetText evt.Message.GetExtendedTextMessage ≠ "") :
    (w.toLower (GetText evt.Message.GetExtendedTextMessage) ∈ ktr1 →
      (handler w (.Message evt)).sends
        = [(evt.Info.Chat, quotingReply evt (goBytes mktr1))]) ∧
    (w.toLower (GetText evt.Message.GetExtendedTextMessage) ∈ ozip1 →
      (handler w (.Message evt)).sends
        = [(evt.Info.Chat, quotingReply evt (goBytes mozip1))]) ∧
    (w.toLower (GetText evt.Message.GetExtendedTextMessage) ∈ halo1 →
      (handler w (.Message evt)).sends
        = [(evt.Info.Chat, quotingReply evt (goBytes mhalo1))]) ∧
    (w.toLower (GetText evt.Message.GetExtendedTextMessage) ∉ keywords →
      (handler w (.Message evt)).sends =
        match firstChoiceTail (w.createCompletion (quotedRequest evt)).1 with
        | .ok text => [(evt.Info.Chat, quotingReply evt text)]
        | .error _ => []) := by
  have hs := (quoted_observable w evt hself hgroup hmedia hbody htext).2
  refine ⟨fun hk => ?_, fun ho => ?_, fun hh => ?_, fun hn => ?_⟩
  · rw [hs, if_pos hk]
  · rw [hs, if_neg (ozip1_disjoint _ ho).1, if_pos ho]
  · rw [hs, if_neg (halo1_disjoint _ hh).1, if_neg (halo1_disjoint _ hh).2.1, if_pos hh]
  · simp only [mem_keywords, not_or] at hn
    rw [hs, if_neg hn.1, if_neg hn.2.1, if_neg hn.2.2]

set_option maxRecDepth 100000 in
/-- Witness of C7, amended: `halo` quoting `apa kabar` gets the canned greeting. -/
theorem handler_quoted_branch_classifies_own_text_witness :
    (handler (okWorld " baik") (.Message (extMsg "halo" (some "apa kabar")))).sends
      = [((extMsg "halo" (some "apa kabar")).Info.Chat,
          quotingReply (extMsg "halo" (some "apa kabar")) (goBytes mhalo1))] :=
  (handler_quoted_branch_classifies_own_text (okWorld " baik")
    (extMsg "halo" (some "apa kabar")) rfl rfl rfl (by decide) (by decide)).2.2.1 (by decide)

/-- C8, as stated, fails: a body arriving as extended text with no quoted parent is sent
to the completion service under the two-turn template, with an empty first turn. -/
theorem extended_text_prompt_counterexample :
    GetQuotedConversation (GetQuotedMessage (GetContextInfo
      (extMsg "apa kabar" none).Message.GetExtendedTextMessage)) = "" ∧
    (handler (okWorld " baik") (.Message (extMsg "apa kabar" none))).completions
      = [completionRequest "Friend: \nYou: apa kabar\nFriend: "] ∧
    "Friend: \nYou: apa kabar\nFriend: " ≠ "You: " ++ "apa kabar" ++ "\nFriend: " := by
  refine ⟨by decide, by decide, by decide⟩

/-- C8, amended: for a direct message whose quoted parent body is empty, a body in the
plain conversation field that matches no keyword is sent to the completion service as
`"You: " + body + "\nFriend: "`, in its original case, and no other prompt is ever used
for a plain body; a body in the extended text field is sent as
`"Friend: " + "" + "\nYou: " + body + "\nFriend: "`. -/
theorem handler_prompt_by_field (w : World) (evt : MessageEvent)
    (hself : evt.Info.IsFromMe = false) (hgroup : evt.Info.IsGroup = false)
    (hmedia : evt.Info.MediaType = "")
    (hquoted : GetQuotedConversation (GetQuotedMessage (GetContextInfo
      evt.Message.GetExtendedTextMessage)) = "") :
    (evt.Message.GetConversation ≠ "" →
      (w.toLower evt.Message.GetConversation ∉ keywords ++ ["meow"] →
        (handler w (.Message evt)).completions
          = [completionRequest ("You: " ++ evt.Message.GetConversation ++ "\nFriend: ")]) ∧
      ∀ r ∈ (handler w (.Message evt)).completions,
        r.Prompt = "You: " ++ evt.Message.GetConversation ++ "\nFriend: ") ∧
    (evt.Message.GetConversation = "" → GetText evt.Message.GetExtendedTextMessage ≠ "" →
      (handler w (.Message evt)).completions
        = [completionRequest ("Friend: " ++ "" ++ "\nYou: "
            ++ GetText evt.Message.GetExtendedTextMessage ++ "\nFriend: ")]) := by
  constructor
  · intro hbody
    by_cases hin : w.toLower evt.Message.GetConversation ∈ keywords ++ ["meow"]
    · refine ⟨fun h => absurd hin h, fun r hr => ?_⟩
      rw [(direct_match_observable w evt hself hgroup hmedia hbody hin).1] at hr
      cases hr
    · have hnot := hin
      simp only [List.mem_append, List.mem_singleton, not_or, mem_keywords] at hnot
      have hc := (direct_none_observable w evt hself hgroup hmedia hbody hnot.1.1 hnot.1.2.1
        hnot.1.2.2 hnot.2).1
      refine ⟨fun _ => hc, fun r hr => ?_⟩
      rw [hc, List.mem_singleton] at hr
      rw [hr]
      rfl
  · intro hbody htext
    rw [(quoted_observable w evt hself hgroup hmedia hbody htext).1]
    simp only [quotedRequest, hquoted]

/-- Witness of C8, amended: the body `apa kabar` in the plain field. -/
theorem handler_prompt_by_field_witness :
    (handler (okWorld " baik") (.Message (plainMsg "apa kabar"))).completions
      = [completionRequest
          ("You: " ++ (plainMsg "apa kabar").Message.GetConversation ++ "\nFriend: ")] :=
  ((handler_prompt_by_field (okWorld " baik") (plainMsg "apa kabar") rfl rfl rfl
    (by decide)).1 (by decide)).1 (by decide)

/-- C9: for a direct message (not self, not group, empty media type) whose lower-cased
plain body is `meow`, `handler` sends exactly one message, to the message's chat: the
poll with the two options `Suka` and `Tidak Suka`, in that order, at most one selectable
answer, and no quote reference; it makes no completion request. The case folding maps
the empty text to itself, as `strings.ToLower` does. -/
theorem handler_meow_poll (w : World) (evt : MessageEvent)
    (hlow : w.toLower "" = "")
    (hself : evt.Info.IsFromMe = false) (hgroup : evt.Info.IsGroup = false)
    (hmedia : evt.Info.MediaType = "")
    (hm : w.toLower evt.Message.GetConversation = "meow") :
    (handler w (.Message evt)).sends = [(evt.Info.Chat, meowPoll)] ∧
    (handler w (.Message evt)).completions = [] ∧
    meowPoll.PollCreationMessage.map (fun q => (q.Options, q.SelectableOptionsCount))
      = some (["Suka", "Tidak Suka"], 1) ∧
    meowPoll.quote = none ∧ meowPoll.text = none := by
  have hbody : evt.Message.GetConversation ≠ "" := by
    intro h
    rw [h, hlow] at hm
    exact absurd hm (by decide)
  simp only [handler]
  rw [handleMessage_direct_meow w evt hself hgroup hmedia hbody hm]
  refine ⟨?_, ?_, rfl, rfl, rfl⟩
  · simp [Run.sends, Effect.asSend]
  · simp [Run.completions, Effect.asCompletion]

/-- Witness of C9: the body `Meow`. -/
theorem handler_meow_poll_witness :
    (handler (okWorld " baik") (.Message (plainMsg "Meow"))).sends
      = [((plainMsg "Meow").Info.Chat, meowPoll)] :=
  (handler_meow_poll (okWorld " baik") (plainMsg "Meow") (by decide) rfl rfl rfl
    (by decide)).1

/-- C10: for a self-sent message `handler` never makes a completion request; when the
media type is not empty, or the lower-cased plain body is neither `!status` nor
`!speedtest`, it does nothing beyond the API-key check and sends nothing; and any message
it sends is the diagnostic reply carrying the subprocess output, to the message's chat,
never a canned or media-not-supported reply. -/
theorem handler_self_sent (w : World) (evt : MessageEvent)
    (hself : evt.Info.IsFromMe = true) :
    (handler w (.Message evt)).completions = [] ∧
    (¬ (evt.Info.MediaType = "" ∧
        (w.toLower evt.Message.GetConversation = "!status" ∨
          w.toLower evt.Message.GetConversation = "!speedtest")) →
      handler w (.Message evt) = ⟨apiKeyCheck w.apiKey, .returned⟩ ∧
      (handler w (.Message evt)).sends = []) ∧
    (∀ p ∈ (handler w (.Message evt)).sends,
      evt.Info.MediaType = "" ∧
      ((w.toLower evt.Message.GetConversation = "!status" ∧
          p = (evt.Info.Chat, quotingReply evt (w.cmdOutput "neofetch" ["--stdout"]).1)) ∨
        (w.toLower evt.Message.GetConversation = "!speedtest" ∧
          p = (evt.Info.Chat,
            quotingReply evt (w.cmdOutput "speedtest" ["--progress=no"]).1)))) := by
  obtain ⟨hc, hs⟩ := self_observable w evt hself
  refine ⟨hc, fun hn => ?_, fun p hp => ?_⟩
  · have hrun : handler w (.Message evt) = ⟨apiKeyCheck w.apiKey, .returned⟩ := by
      simp only [handler]
      rw [handleMessage_self w evt hself]
      by_cases h1 : evt.Info.MediaType = "" ∧ evt.Message.GetConversation ≠ ""
      · have h2 : w.toLower evt.Message.GetConversation ≠ "!status" :=
          fun h => hn ⟨h1.1, Or.inl h⟩
        have h3 : w.toLower evt.Message.GetConversation ≠ "!speedtest" :=
          fun h => hn ⟨h1.1, Or.inr h⟩
        rw [if_pos h1, if_neg h2, if_neg h3]
      · rw [if_neg h1]
    refine ⟨hrun, ?_⟩
    rw [hrun]
    simp [Run.sends]
  · rw [hs] at hp
    split_ifs at hp with h1 h2 h3
    · rw [List.mem_singleton] at hp
      exact ⟨h1.1, Or.inl ⟨h2, hp⟩⟩
    · rw [List.mem_singleton] at hp
      exact ⟨h1.1, Or.inr ⟨h3, hp⟩⟩
    · cases hp
    · cases hp

/-- Witness of C10: a self-sent `halo` is not answered. -/
theorem handler_self_sent_witness :
    (handler (okWorld " baik") (.Message (selfMsg false "halo"))).completions = [] ∧
    (handler (okWorld " baik") (.Message (selfMsg false "halo"))).sends = [] :=
  have h := handler_self_sent (okWorld " baik") (selfMsg false "halo") rfl
  ⟨h.1, (h.2.1 (by decide)).2⟩

/-- C11: a failed diagnostic subprocess does not stop the reply. When `neofetch`
(likewise `speedtest`) fails and nothing was captured, `handler` prints the failure and
goes on to send a reply all the same, with an empty text. -/
theorem failed_subprocess_still_replies :
    (errWorld.cmdOutput "neofetch" ["--stdout"]).2 = some "exit status 1" ∧
    handler errWorld (.Message (selfMsg false "!status"))
      = ⟨[.cmdOutput false "neofetch" ["--stdout"], .println "could not run command: ",
          .sendMessage false (selfMsg false "!status").Info.Chat
            (quotingReply (selfMsg false "!status") [])], .returned⟩ ∧
    (handler errWorld (.Message (selfMsg false "!speedtest"))).sends
      = [((selfMsg false "!speedtest").Info.Chat,
          quotingReply (selfMsg false "!speedtest") [])] := by
  refine ⟨by decide, by decide, by decide⟩

/-- The diagnostic reply: for a self-sent message with empty media type whose
lower-cased body is `!status` (likewise `!speedtest`), the one message sent carries the
captured standard output and quotes the trigger; the test of the subprocess error has no
part in it. The case folding maps the empty text to itself. -/
theorem handler_diagnostic_reply (w : World) (evt : MessageEvent)
    (hlow : w.toLower "" = "")
    (hself : evt.Info.IsFromMe = true) (hmedia : evt.Info.MediaType = "") :
    (w.toLower evt.Message.GetConversation = "!status" →
      (handler w (.Message evt)).sends
        = [(evt.Info.Chat, quotingReply evt (w.cmdOutput "neofetch" ["--stdout"]).1)]) ∧
    (w.toLower evt.Message.GetConversation = "!speedtest" →
      (handler w (.Message evt)).sends
        = [(evt.Info.Chat, quotingReply evt (w.cmdOutput "speedtest" ["--progress=no"]).1)]) ∧
    (∀ text, (quotingReply evt text).text = some text ∧
      (quotingReply evt text).quote = some (evt.Info.ID, evt.Info.Sender.String)) := by
  have hs := (self_observable w evt hself).2
  have hbody : ∀ cmd : String, cmd ≠ "" → w.toLower evt.Message.GetConversation = cmd →
      evt.Message.GetConversation ≠ "" := by
    intro cmd hcmd h he
    rw [he, hlow] at h
    exact hcmd h.symm
  refine ⟨fun h => ?_, fun h => ?_, fun text => ?_⟩
  · rw [hs, if_pos ⟨hmedia, hbody "!status" (by decide) h⟩, if_pos h]
  · have hne : w.toLower evt.Message.GetConversation ≠ "!status" := by
      rw [h]
      decide
    rw [hs, if_pos ⟨hmedia, hbody "!speedtest" (by decide) h⟩, if_neg hne, if_pos h]
  · simp [quotingReply, OutMessage.text, OutMessage.quote]

/-- A self-sent `!status` whose subprocess prints `up` and succeeds. -/
theorem handler_diagnostic_reply_witness :
    (handler cmdWorld (.Message (selfMsg false "!status"))).sends
      = [((selfMsg false "!status").Info.Chat,
          quotingReply (selfMsg false "!status")
            (cmdWorld.cmdOutput "neofetch" ["--stdout"]).1)] :=
  (handler_diagnostic_reply cmdWorld (selfMsg false "!status") (by decide) rfl rfl).1
    (by decide)

/-- The forced reconnect cycles of one keepalive timeout event. -/
theorem keepAlive_reconnects (w : World) (evt : KeepAliveTimeout) :
    (handler w (.KeepAliveTimeout evt)).reconnects = if 3 < evt.ErrorCount then 1 else 0 := by
  by_cases h : 3 < evt.ErrorCount
  · cases hc : w.connectErr <;>
      simp [handler, Run.reconnects, h, hc] <;> decide
  · simp [handler, Run.reconnects, h]
    decide

/-- C12: a keepalive timeout event forces a disconnect followed by a reconnect exactly
when its error count exceeds 3, and then exactly once. Over a run of consecutive timeout
events with error counts 1, 2, ..., n the reconnect cycles number n - 3: none over the
first three events, exactly one over a run of four, triggered by the fourth. -/
theorem handler_keepalive_reconnect (w : World) (evt : KeepAliveTimeout) (n : Nat) :
    (handler w (.KeepAliveTimeout evt)).reconnects = (if 3 < evt.ErrorCount then 1 else 0) ∧
    ((.disconnect ∈ (handler w (.KeepAliveTimeout evt)).effects ∨
        .connect ∈ (handler w (.KeepAliveTimeout evt)).effects) ↔ 3 < evt.ErrorCount) ∧
    totalReconnects w (keepAliveRun n) = n - 3 ∧
    totalReconnects w (keepAliveRun 3) = 0 ∧
    totalReconnects w (keepAliveRun 4) = 1 ∧
    (handler w (.KeepAliveTimeout ⟨4⟩)).reconnects = 1 := by
  have hrun : ∀ m, totalReconnects w (keepAliveRun m) = m - 3 := by
    intro m
    induction m with
    | zero => rfl
    | succ k ih =>
      have hstep : totalReconnects w (keepAliveRun (k + 1))
          = totalReconnects w (keepAliveRun k)
            + (handler w (.KeepAliveTimeout ⟨(k : Int) + 1⟩)).reconnects := by
        simp [totalReconnects, keepAliveRun, List.range_succ]
      rw [hstep, ih, keepAlive_reconnects]
      by_cases h : 3 < (k : Int) + 1
      · rw [if_pos h]
        omega
      · rw [if_neg h]
        omega
  refine ⟨keepAlive_reconnects w evt, ?_, hrun n, hrun 3, hrun 4, ?_⟩
  · by_cases h : 3 < evt.ErrorCount
    · cases hc : w.connectErr <;> simp [handler, h, hc]
    · simp [handler, h]
  · rw [keepAlive_reconnects]
    rfl

/-- C15: on a successful completion response the reply body `Choices[0].Text[1:]` is
not defined for every response. With no choices the run ends in an index-out-of-range
panic, with an empty first text in a slice-bounds panic, and nothing is sent; with a
first text that starts with a two-byte character only the first byte is dropped, so the
body differs from the text without its leading character. -/
theorem completion_reply_strip_undefined :
    handler (mkWorld (⟨[]⟩, none) ([], none)) (.Message (plainMsg "apa kabar"))
      = ⟨[.createCompletion (completionRequest "You: apa kabar\nFriend: ")],
          .panicked .indexOutOfRange⟩ ∧
    handler (okWorld "") (.Message (plainMsg "apa kabar"))
      = ⟨[.createCompletion (completionRequest "You: apa kabar\nFriend: ")],
          .panicked .sliceBoundsOutOfRange⟩ ∧
    (handler (okWorld "é?") (.Message (plainMsg "apa kabar"))).sends
      = [((plainMsg "apa kabar").Info.Chat, { Conversation := some [0xA9, 0x3F] })] ∧
    goBytes ("é?".drop 1) = [0x3F] := by
  refine ⟨by decide, by decide, by decide, by decide⟩

set_option maxRecDepth 100000 in
/-- C16: in the quoted-reply branch the completion request is made before the keyword
tests: the message `halo` quoting `apa kabar` is answered with the canned greeting, and
a completion request was made for it all the same. -/
theorem quoted_canned_reply_still_completes :
    (handler (okWorld " baik") (.Message (extMsg "halo" (some "apa kabar")))).sends
      = [((extMsg "halo" (some "apa kabar")).Info.Chat,
          quotingReply (extMsg "halo" (some "apa kabar")) (goBytes mhalo1))] ∧
    (handler (okWorld " baik") (.Message (extMsg "halo" (some "apa kabar")))).completions
      = [completionRequest "Friend: apa kabar\nYou: halo\nFriend: "] ∧
    (handler (okWorld " baik") (.Message (plainMsg "halo"))).completions = [] := by
  refine ⟨by decide, by decide, by decide⟩

/-! ## Lemmas on the operator commands -/

/-- The log lines of `parseJID` hold no send. -/
theorem parseJID_logs_asSend (c : CmdWorld) (arg : String) :
    (parseJID c arg).1.filterMap Effect.asSend = [] := by
  unfold parseJID
  split
  · rfl
  · dsimp only
    split_ifs <;> rfl

/-- The log lines of the recipient loop hold no send. -/
theorem collectRecipients_logs_asSend (c : CmdWorld) :
    ∀ (args : List String) (acc : List JID),
      (collectRecipients c args acc).1.filterMap Effect.asSend = [] := by
  intro args
  induction args with
  | nil => intro acc; rfl
  | cons a rest ih =>
    intro acc
    unfold collectRecipients
    by_cases ha : a = "--"
    · simp [ha]
    · have hlogs := parseJID_logs_asSend c a
      rcases hp : parseJID c a with ⟨logs, p | ⟨recipient, ok⟩⟩
      · rw [hp] at hlogs
        simpa [ha] using hlogs
      · rw [hp] at hlogs
        cases ok
        · simpa [ha] using hlogs
        · simp only [bne_iff_ne, ne_eq, ha, not_false_eq_true, if_true, Bool.not_true,
            Bool.false_eq_true, if_false, List.filterMap_append]
          rw [ih]
          simpa using hlogs

/-- On valid JIDs up to the separator the loop gathers every recipient, in order, and
stops at the separator without writing a log line. -/
theorem collectRecipients_valid (c : CmdWorld) (words : List String) :
    ∀ (targets : List (String × JID)) (acc : List JID),
      (∀ p ∈ targets, p.1 ≠ "--" ∧ parseJID c p.1 = ([], .ok (p.2, true))) →
      collectRecipients c (targets.map Prod.fst ++ "--" :: words) acc
        = ([], .ok (acc ++ targets.map Prod.snd, "--" :: words)) := by
  intro targets
  induction targets with
  | nil =>
    intro acc _
    simp [collectRecipients]
  | cons p rest ih =>
    intro acc h
    have hp := h p (List.mem_cons_self _ _)
    have hrest : ∀ q ∈ rest, q.1 ≠ "--" ∧ parseJID c q.1 = ([], .ok (q.2, true)) :=
      fun q hq => h q (List.mem_cons_of_mem _ hq)
    simp only [List.map_cons, List.cons_append]
    unfold collectRecipients
    simp only [bne_iff_ne, ne_eq, hp.1, not_false_eq_true, if_true, hp.2, Bool.not_true,
      Bool.false_eq_true, if_false, List.nil_append]
    rw [ih (acc ++ [p.2]) hrest]
    simp

/-- Without a separator the loop, if it ends normally, leaves no argument. -/
theorem collectRecipients_no_separator (c : CmdWorld) :
    ∀ (args : List String) (acc : List JID) (logs : List Effect) (rs : List JID)
      (rest : List String), "--" ∉ args →
      collectRecipients c args acc = (logs, .ok (rs, rest)) → rest = [] := by
  intro args
  induction args with
  | nil =>
    intro acc logs rs rest _ h
    simp only [collectRecipients, Prod.mk.injEq, Except.ok.injEq] at h
    exact h.2.2.symm
  | cons a tl ih =>
    intro acc logs rs rest hsep h
    have ha : a ≠ "--" := fun e => hsep (by simp [e])
    have htl : "--" ∉ tl := fun e => hsep (List.mem_cons_of_mem _ e)
    unfold collectRecipients at h
    rcases hp : parseJID c a with ⟨plogs, p | ⟨recipient, ok⟩⟩
    · simp [ha, hp] at h
    · cases ok
      · simp [ha, hp] at h
      · simp only [bne_iff_ne, ne_eq, ha, not_false_eq_true, if_true, hp, Bool.not_true,
          Bool.false_eq_true, if_false, Prod.mk.injEq] at h
        exact ih (acc ++ [recipient]) _ rs rest htl (Prod.ext rfl h.2)

/-- An invalid JID before the separator ends the command inside the loop. -/
theorem collectRecipients_invalid (c : CmdWorld) (bad : String) (post : List String)
    (hbad : bad ≠ "--") (hinv : ∀ r, (parseJID c bad).2 ≠ .ok (r, true)) :
    ∀ (pre : List String) (acc : List JID), (∀ a ∈ pre, a ≠ "--") →
      ∃ o, (collectRecipients c (pre ++ bad :: post) acc).2 = .error o := by
  intro pre
  induction pre with
  | nil =>
    intro acc _
    simp only [List.nil_append]
    unfold collectRecipients
    rcases hp : parseJID c bad with ⟨plogs, p | ⟨recipient, ok⟩⟩
    · exact ⟨.panicked p, by simp [hbad]⟩
    · cases ok
      · exact ⟨.returned, by simp [hbad]⟩
      · exact absurd (by rw [hp]) (hinv recipient)
  | cons a tl ih =>
    intro acc h
    have ha : a ≠ "--" := h a (List.mem_cons_self _ _)
    have htl : ∀ b ∈ tl, b ≠ "--" := fun b hb => h b (List.mem_cons_of_mem _ hb)
    simp only [List.cons_append]
    unfold collectRecipients
    rcases hp : parseJID c a with ⟨plogs, p | ⟨recipient, ok⟩⟩
    · exact ⟨.panicked p, by simp [ha]⟩
    · cases ok
      · exact ⟨.returned, by simp [ha]⟩
      · obtain ⟨o, ho⟩ := ih (acc ++ [recipient]) htl
        exact ⟨o, by simpa [ha] using ho⟩

/-- The goroutines of `multisend` send the message once to each recipient, in order. -/
theorem multisendTask_asSend (c : CmdWorld) (msg : OutMessage) (recipients : List JID) :
    (recipients.map (multisendTask c msg)).flatten.filterMap Effect.asSend
      = recipients.map (fun r => (r, msg)) := by
  induction recipients with
  | nil => rfl
  | cons r rest ih =>
    simp only [List.map_cons, List.flatten_cons, List.filterMap_append, ih]
    unfold multisendTask
    split <;> simp [Effect.asSend]

/-- The sends of `multisend` when the loop ends the command. -/
theorem cmdMultisend_sends_of_error (c : CmdWorld) (args : List String) (o : Outcome)
    (h : (collectRecipients c args []).2 = .error o) :
    (cmdMultisend c args).sends = [] := by
  have hl := collectRecipients_logs_asSend c args []
  unfold cmdMultisend
  split
  · rfl
  · rcases hc : collectRecipients c args [] with ⟨logs, e | ⟨rs, rest⟩⟩
    · rw [hc] at hl
      simpa [Run.sends] using hl
    · rw [hc] at h
      cases h

/-- The sends of `multisend` on a line without separator. -/
theorem cmdMultisend_sends_no_separator (c : CmdWorld) (args : List String)
    (h : "--" ∉ args) : (cmdMultisend c args).sends = [] := by
  rcases hc : collectRecipients c args [] with ⟨logs, e | ⟨rs, rest⟩⟩
  · exact cmdMultisend_sends_of_error c args e (by rw [hc])
  · have hrest := collectRecipients_no_separator c args [] logs rs rest h hc
    have hl := collectRecipients_logs_asSend c args []
    rw [hc] at hl
    unfold cmdMultisend
    split
    · rfl
    · rw [hc, hrest]
      simpa [Run.sends, Effect.asSend] using hl

/-- The sends of `multisend` on valid JIDs, a separator and a text. -/
theorem cmdMultisend_sends_valid (c : CmdWorld) (targets : List (String × JID))
    (words : List String) (hlen : 3 ≤ targets.length + 1 + words.length)
    (hvalid : ∀ p ∈ targets, p.1 ≠ "--" ∧ parseJID c p.1 = ([], .ok (p.2, true))) :
    (cmdMultisend c (targets.map Prod.fst ++ "--" :: words)).sends
      = targets.map (fun p => (p.2, { Conversation := some (goBytes (Join words " ")) })) := by
  have hl : ¬ (targets.map Prod.fst ++ "--" :: words).length < 3 := by
    simp only [List.length_append, List.length_map, List.length_cons]
    omega
  unfold cmdMultisend
  rw [if_neg hl, collectRecipients_valid c words targets [] hvalid]
  simp only [List.length_cons, Nat.add_one_ne_zero, beq_iff_eq, if_false, List.nil_append,
    List.drop_succ_cons, List.drop_zero, Run.sends]
  rw [multisendTask_asSend, List.map_map]
  rfl

/-- The pieces of a split number one more than the separators. -/
theorem splitPieces_length (sep : Char) :
    ∀ (l cur : List Char), (splitPieces sep l cur).length = l.count sep + 1 := by
  intro l
  induction l with
  | nil => intro cur; rfl
  | cons ch t ih =>
    intro cur
    unfold splitPieces
    by_cases h : ch = sep
    · simp [h, ih]
    · simp [h, ih, List.count_cons]

/-- A found cut puts the text back together around the separator. -/
theorem cutChars_append (sep : List Char) :
    ∀ (l before after : List Char), cutChars sep l = some (before, after) →
      l = before ++ sep ++ after := by
  intro l
  induction l with
  | nil =>
    intro before after h
    unfold cutChars at h
    split_ifs at h with hs
    simp only [Option.some.injEq, Prod.mk.injEq] at h
    rw [← h.1, ← h.2, hs]
    rfl
  | cons ch t ih =>
    intro before after h
    unfold cutChars at h
    split_ifs at h with hp
    · simp only [Option.some.injEq, Prod.mk.injEq] at h
      rw [← h.1, ← h.2]
      obtain ⟨r, hr⟩ := List.isPrefixOf_iff_prefix.mp hp
      rw [← hr]
      simp
    · cases hc : cutChars sep t with
      | none => simp [hc] at h
      | some p =>
        rw [hc] at h
        simp only [Option.map, Option.some.injEq, Prod.mk.injEq] at h
        rw [← h.1, ← h.2, ih p.1 p.2 hc]
        simp

/-- The verb `multisend` runs the `multisend` case. -/
theorem handleCmd_multisend_eq (c : CmdWorld) (args : List String) :
    handleCmd c "multisend" args = some (cmdMultisend c args) := by
  simp [handleCmd]

/-- The verb `sendpoll` runs the `sendpoll` case. -/
theorem handleCmd_sendpoll_eq (c : CmdWorld) (args : List String) :
    handleCmd c "sendpoll" args = some (cmdSendpoll c args) := by
  simp [handleCmd]

/-- C13, as stated, fails: in `multisend 628 --` one valid JID stands before the `--`,
but the line has only two arguments: it is refused with the usage message and no send is
issued, where the claim has one. -/
theorem multisend_no_text_counterexample :
    "628" ≠ "--" ∧
    parseJID (cmdLib (fun _ => false)) "628" = ([], .ok (⟨"628@s.whatsapp.net"⟩, true)) ∧
    handleCmd (cmdLib (fun _ => false)) "multisend" ["628", "--"]
      = some ⟨[.logError "Usage: multisend <jids...> -- <text>"], .returned⟩ ∧
    (handleCmd (cmdLib (fun _ => false)) "multisend" ["628", "--"]).map Run.sends
      = some [] := by
  refine ⟨by decide, rfl, by decide, by decide⟩

/-- C13, amended: for the arguments `j1 ... jn -- w1 ... wk` of `multisend`, with n >= 1
valid JIDs before the first `--` and a text of k >= 1 words, `handleCmd` issues exactly n
sends, one to each parsed JID in order, each carrying the words joined by single spaces,
whatever the sends themselves answer (success or failure). A line of fewer than three
arguments is refused with the usage message and nothing is sent. If the `--` is missing,
or an argument before it is not a valid JID, no send is issued at all. -/
theorem handleCmd_multisend (c : CmdWorld) (targets : List (String × JID))
    (words : List String) (hn : targets ≠ []) (hk : words ≠ [])
    (hvalid : ∀ p ∈ targets, p.1 ≠ "--" ∧ parseJID c p.1 = ([], .ok (p.2, true))) :
    (∀ answers : JID → OutMessage → Option String,
      (handleCmd { c with sendMessageErr := answers } "multisend"
          (targets.map Prod.fst ++ "--" :: words)).map Run.sends
        = some (targets.map
            (fun p => (p.2, { Conversation := some (goBytes (Join words " ")) })))) ∧
    (∀ args : List String, args.length < 3 →
      handleCmd c "multisend" args
        = some ⟨[.logError "Usage: multisend <jids...> -- <text>"], .returned⟩) ∧
    (∀ args, "--" ∉ args → (handleCmd c "multisend" args).map Run.sends = some []) ∧
    (∀ pre bad post, (∀ a ∈ pre, a ≠ "--") → bad ≠ "--" →
      (∀ r, (parseJID c bad).2 ≠ .ok (r, true)) →
      (handleCmd c "multisend" (pre ++ bad :: post)).map Run.sends = some []) := by
  refine ⟨fun answers => ?_, fun args hshort => ?_, fun args hsep => ?_,
    fun pre bad post hpre hbad hinv => ?_⟩
  · have hlen : 3 ≤ targets.length + 1 + words.length := by
      have h1 : 0 < targets.length := List.length_pos.mpr hn
      have h2 : 0 < words.length := List.length_pos.mpr hk
      omega
    have hvalid2 : ∀ p ∈ targets, p.1 ≠ "--" ∧
        parseJID { c with sendMessageErr := answers } p.1 = ([], .ok (p.2, true)) :=
      fun p hp => ⟨(hvalid p hp).1, (hvalid p hp).2⟩
    rw [handleCmd_multisend_eq, Option.map_some',
      cmdMultisend_sends_valid _ targets words hlen hvalid2]
  · rw [handleCmd_multisend_eq]
    unfold cmdMultisend
    rw [if_pos hshort]
  · rw [handleCmd_multisend_eq, Option.map_some', cmdMultisend_sends_no_separator c args hsep]
  · obtain ⟨o, ho⟩ := collectRecipients_invalid c bad post hbad hinv pre [] hpre
    rw [handleCmd_multisend_eq, Option.map_some', cmdMultisend_sends_of_error c _ o ho]

/-- Witness of C13, amended: `multisend 628 +629 -- halo semua`, the second send
failing. -/
theorem handleCmd_multisend_witness :
    (handleCmd { cmdLib (fun _ => false) with
          sendMessageErr := fun j _ => if j = ⟨"629@s.whatsapp.net"⟩ then some "timeout" else none }
        "multisend"
        ([("628", (⟨"628@s.whatsapp.net"⟩ : JID)), ("+629", ⟨"629@s.whatsapp.net"⟩)].map
          Prod.fst ++ "--" :: ["halo", "semua"])).map Run.sends
      = some ([("628", (⟨"628@s.whatsapp.net"⟩ : JID)), ("+629", ⟨"629@s.whatsapp.net"⟩)].map
          (fun p => (p.2,
            { Conversation := some (goBytes (Join ["halo", "semua"] " ")) }))) :=
  (handleCmd_multisend (cmdLib (fun _ => false))
    [("628", ⟨"628@s.whatsapp.net"⟩), ("+629", ⟨"629@s.whatsapp.net"⟩)] ["halo", "semua"]
    (by decide) (by decide)
    (by
      intro p hp
      simp only [List.mem_cons, List.mem_singleton, List.not_mem_nil, or_false] at hp
      rcases hp with rfl | rfl
      · exact ⟨by decide, rfl⟩
      · exact ⟨by decide, rfl⟩)).1 _

/-- C14: the `sendpoll` command sends polls with fewer than two options. The accepted
line `sendpoll 628 1 Suka meow ? -- ya` has seven arguments, a valid JID and an integer,
and sends a poll with the single option `ya`; the accepted line
`sendpoll 628 2 a b c d e`, without `--`, sends a poll whose only option is empty. -/
theorem sendpoll_single_option :
    ["628", "1", "Suka", "meow", "?", "--", "ya"].length = 7 ∧
    (handleCmd (cmdLib (fun _ => false)) "sendpoll"
        ["628", "1", "Suka", "meow", "?", "--", "ya"]).map Run.sends
      = some [(⟨"628@s.whatsapp.net"⟩,
          { PollCreationMessage := some ⟨"Suka meow ?", ["ya"], 1⟩ })] ∧
    ["ya"].length < 2 ∧
    (handleCmd (cmdLib (fun _ => false)) "sendpoll"
        ["628", "2", "a", "b", "c", "d", "e"]).map Run.sends
      = some [(⟨"628@s.whatsapp.net"⟩,
          { PollCreationMessage := some ⟨"a b c d e", [""], 0⟩ })] := by
  refine ⟨by decide, by decide, by decide, by decide⟩

/-- How `sendpoll` reads an accepted line (at least 7 arguments, a valid JID, an integer
max-answers): the question is the trimmed text before the first `--` of the remaining
arguments joined by spaces, the options are the trimmed pieces of the text after it,
split at `/`, and the poll is the one `BuildPollCreation` builds from them; the pieces
number one more than the `/` in that text. A line of fewer than 7 arguments sends
nothing. -/
theorem handleCmd_sendpoll (c : CmdWorld) (a0 a1 : String) (rest : List String)
    (recipient : JID) (maxAnswers : Int)
    (hlen : 7 ≤ (a0 :: a1 :: rest).length)
    (hjid : parseJID c a0 = ([], .ok (recipient, true)))
    (hmax : c.Atoi a1 = some maxAnswers) :
    (handleCmd c "sendpoll" (a0 :: a1 :: rest)).map Run.sends
      = some [(recipient, BuildPollCreation
          (TrimSpace (Cut (Join rest " ") "--").1)
          ((Split (Cut (Join rest " ") "--").2.1 '/').map TrimSpace) maxAnswers)] ∧
    ((Split (Cut (Join rest " ") "--").2.1 '/').map TrimSpace).length
      = (Cut (Join rest " ") "--").2.1.data.count '/' + 1 ∧
    1 ≤ ((Split (Cut (Join rest " ") "--").2.1 '/').map TrimSpace).length ∧
    (∀ args, args.length < 7 → (handleCmd c "sendpoll" args).map Run.sends = some []) := by
  have hcount : ((Split (Cut (Join rest " ") "--").2.1 '/').map TrimSpace).length
      = (Cut (Join rest " ") "--").2.1.data.count '/' + 1 := by
    rw [List.length_map]
    exact splitPieces_length _ _ _
  refine ⟨?_, hcount, by omega, fun args hargs => ?_⟩
  · have hl : ¬ (a0 :: a1 :: rest).length < 7 := by omega
    rw [handleCmd_sendpoll_eq, Option.map_some']
    unfold cmdSendpoll
    rw [if_neg hl]
    simp only [hjid, hmax, Bool.not_true, Bool.false_eq_true, if_false, List.nil_append]
    unfold sendLog
    split <;> simp [Run.sends, Effect.asSend]
  · rw [handleCmd_sendpoll_eq, Option.map_some']
    unfold cmdSendpoll
    rw [if_pos hargs]
    rfl

/-- The line `sendpoll 628 2 Suka ? -- ya / tidak mau /`. -/
theorem handleCmd_sendpoll_witness :
    (handleCmd (cmdLib (fun _ => false)) "sendpoll"
        ("628" :: "2" :: ["Suka", "?", "--", "ya", "/", "tidak mau", "/"])).map Run.sends
      = some [(⟨"628@s.whatsapp.net"⟩, BuildPollCreation
          (TrimSpace (Cut (Join ["Suka", "?", "--", "ya", "/", "tidak mau", "/"] " ") "--").1)
          ((Split (Cut (Join ["Suka", "?", "--", "ya", "/", "tidak mau", "/"] " ") "--").2.1
            '/').map TrimSpace) 2)] :=
  (handleCmd_sendpoll (cmdLib (fun _ => false)) "628" "2"
    ["Suka", "?", "--", "ya", "/", "tidak mau", "/"] ⟨"628@s.whatsapp.net"⟩ 2
    (by decide) rfl rfl).1

end MeowAI
